import Mathlib

/-!
csi-driver-manila-operator: RBAC reconcilers and the NFS asset hook

A shallow embedding of

* `pkg/controller/maniladriver/manila_controllerplugin_rbac.go`
  (`handleManilaControllerPluginRBAC` and the five per-kind handlers), and
* `pkg/operator/starter.go` (`RunOperator`, `assetWithNFSDriver`),

followed by the properties established about them.

Conventions of the embedding.

* A Go `error` is `Option Error`; `none` is `nil`.
* The Kubernetes client and the uncached API reader held by
  `ReconcileManilaDriver` are external collaborators.  They are a record of
  state transformers over an arbitrary state type `σ`, so every statement
  proved for "all `r`" covers every behaviour of the API server, failures
  included.
* Every call that crosses that boundary is appended, together with its
  outcome, to the call log of the `World` by the primitive that performs it;
  the handlers never touch the log themselves.
* The package-level variable `labelsManilaControllerPlugin` is a Go map: a
  mutable value shared by reference.  Every template holds that same map as its
  `Labels`, and the templates are handed by pointer to `r.client.Create` and
  `r.client.Update`, which decode the server's reply into the object they were
  given.  The current content of the map is therefore part of the `World`
  (`labels`): the handlers read it when they build a template, and `Create`
  and `Update` leave in it whatever the client wrote.
* `reqLogger.Info` lines and the unused `instance` argument are not modelled.
-/

namespace ManilaOperator

/-! ## Errors -/

/-- A non-nil Go `error`.  `Reason` is the API status reason carried by errors
of `k8s.io/apimachinery/pkg/api/errors` (empty for plain errors such as those
made by `fmt.Errorf`). -/
structure Error where
  Reason : String
  Message : String
deriving DecidableEq, Repr

/-- Go `errors.IsNotFound(err)` for a non-nil `err`. -/
def IsNotFound (err : Error) : Bool := err.Reason == "NotFound"

/-- Go `fmt.Errorf(msg)` for a constant message. -/
def Errorf (msg : String) : Error := { Reason := "", Message := msg }

/-- The error of a fallible result (`nil` on success). -/
def errOf {α : Type} : Except Error α → Option Error
  | Except.error e => some e
  | Except.ok _ => none

/-! ## Kubernetes objects -/

/-- The content of a Go `map[string]string`: its key/value pairs. -/
abbrev LabelMap := List (String × String)

/-- The part of `metav1.ObjectMeta` that matters here: the identity, the labels
the templates set, and two server-assigned fields no template sets. -/
structure ObjectMeta where
  Name : String := ""
  Namespace : String := ""
  Labels : LabelMap := []
  ResourceVersion : String := ""
  UID : String := ""
deriving DecidableEq, Repr

/-- Go `rbacv1.PolicyRule`. -/
structure PolicyRule where
  APIGroups : List String := []
  Resources : List String := []
  Verbs : List String := []
deriving DecidableEq, Repr

/-- Go `rbacv1.Subject`. -/
structure Subject where
  Kind : String := ""
  APIGroup : String := ""
  Name : String := ""
  Namespace : String := ""
deriving DecidableEq, Repr

/-- Go `rbacv1.RoleRef`. -/
structure RoleRef where
  APIGroup : String := ""
  Kind : String := ""
  Name : String := ""
deriving DecidableEq, Repr

/-- Go `corev1.ServiceAccount`; `Secrets` holds the names of the referenced
secrets, a field the controller-plugin template leaves unset. -/
structure ServiceAccount where
  ObjectMeta : ObjectMeta := {}
  Secrets : List String := []
deriving DecidableEq, Repr

/-- Go `rbacv1.ClusterRole`. -/
structure ClusterRole where
  ObjectMeta : ObjectMeta := {}
  Rules : List PolicyRule := []
deriving DecidableEq, Repr

/-- Go `rbacv1.ClusterRoleBinding`. -/
structure ClusterRoleBinding where
  ObjectMeta : ObjectMeta := {}
  Subjects : List Subject := []
  RoleRef : RoleRef := {}
deriving DecidableEq, Repr

/-- Go `rbacv1.Role`. -/
structure Role where
  ObjectMeta : ObjectMeta := {}
  Rules : List PolicyRule := []
deriving DecidableEq, Repr

/-- Go `rbacv1.RoleBinding`. -/
structure RoleBinding where
  ObjectMeta : ObjectMeta := {}
  Subjects : List Subject := []
  RoleRef : RoleRef := {}
deriving DecidableEq, Repr

/-- The five resource kinds the RBAC handlers manage. -/
inductive Kind where
  | ServiceAccount
  | ClusterRole
  | ClusterRoleBinding
  | Role
  | RoleBinding
deriving DecidableEq, Repr

/-- A `runtime.Object` of one of the five kinds. -/
inductive Object where
  | ServiceAccount (o : ServiceAccount)
  | ClusterRole (o : ClusterRole)
  | ClusterRoleBinding (o : ClusterRoleBinding)
  | Role (o : Role)
  | RoleBinding (o : RoleBinding)
deriving DecidableEq, Repr

/-- The kind of an object. -/
def Object.kind : Object → Kind
  | Object.ServiceAccount _ => Kind.ServiceAccount
  | Object.ClusterRole _ => Kind.ClusterRole
  | Object.ClusterRoleBinding _ => Kind.ClusterRoleBinding
  | Object.Role _ => Kind.Role
  | Object.RoleBinding _ => Kind.RoleBinding

/-- The metadata of an object. -/
def Object.objectMeta : Object → ObjectMeta
  | Object.ServiceAccount o => o.ObjectMeta
  | Object.ClusterRole o => o.ObjectMeta
  | Object.ClusterRoleBinding o => o.ObjectMeta
  | Object.Role o => o.ObjectMeta
  | Object.RoleBinding o => o.ObjectMeta

/-- Go `types.NamespacedName`. -/
structure NamespacedName where
  Name : String
  Namespace : String
deriving DecidableEq, Repr

/-- Go `patch.PatchResult` of k8s-objectmatcher, reduced to the patch document. -/
structure PatchResult where
  Patch : String
deriving DecidableEq, Repr

/-- Go `(*PatchResult).IsEmpty`: the patch is the empty JSON object. -/
def PatchResult.IsEmpty (p : PatchResult) : Bool := p.Patch == "{}"

/-! ## External collaborators and the call log -/

/-- What a call of `r.client.Create` or `r.client.Update` leaves behind: the
error it returned, the outside state, and the content of the label map of the
object it was given.  The client receives the object by pointer and decodes the
server's reply into it, so it may write that map. -/
structure ClientResult (σ : Type) where
  err : Option Error
  state : σ
  labels : LabelMap

/-- The collaborators a `ReconcileManilaDriver` holds: `r.apiReader.Get`,
`r.client.Create` and `r.client.Update`, each an arbitrary transformer of the
state `σ` of the world outside the operator.  `Get` fills a fresh object;
`Create` and `Update` may also write the object they are given. -/
structure ReconcileManilaDriver (σ : Type) where
  apiReaderGet : Kind → NamespacedName → σ → Except Error Object × σ
  clientCreate : Object → σ → ClientResult σ
  clientUpdate : Object → σ → ClientResult σ

/-- The patch calculator `patch.DefaultPatchMaker`: `Calculate` is a function
of the current and the modified object. -/
structure PatchMaker where
  Calculate : Object → Object → Except Error PatchResult

/-- One call across the boundary, with its arguments and the error it returned. -/
inductive Call where
  | Get (kind : Kind) (key : NamespacedName) (err : Option Error)
  | Create (obj : Object) (err : Option Error)
  | Update (obj : Object) (err : Option Error)
  | Calculate (currentObject modifiedObject : Object) (err : Option Error)
deriving DecidableEq, Repr

/-- The state of the outside world, the log of calls made so far, and the
current content of the package-level map `labelsManilaControllerPlugin`. -/
structure World (σ : Type) where
  state : σ
  calls : List Call
  labels : LabelMap

/-- Primitive `r.apiReader.Get(ctx, key, found)`: performs the call and logs it. -/
def Get {σ : Type} (r : ReconcileManilaDriver σ) (kind : Kind) (key : NamespacedName)
    (w : World σ) : Except Error Object × World σ :=
  let res := r.apiReaderGet kind key w.state
  (res.1, { state := res.2, calls := w.calls ++ [Call.Get kind key (errOf res.1)],
            labels := w.labels })

/-- Primitive `r.client.Create(ctx, obj)` for an object whose `Labels` is the
shared map: performs the call and logs it; the map holds what the client left
in it. -/
def Create {σ : Type} (r : ReconcileManilaDriver σ) (obj : Object)
    (w : World σ) : Option Error × World σ :=
  let res := r.clientCreate obj w.state
  (res.err, { state := res.state, calls := w.calls ++ [Call.Create obj res.err],
              labels := res.labels })

/-- Primitive `r.client.Update(ctx, obj)` for an object whose `Labels` is the
shared map: performs the call and logs it; the map holds what the client left
in it. -/
def Update {σ : Type} (r : ReconcileManilaDriver σ) (obj : Object)
    (w : World σ) : Option Error × World σ :=
  let res := r.clientUpdate obj w.state
  (res.err, { state := res.state, calls := w.calls ++ [Call.Update obj res.err],
              labels := res.labels })

/-- Primitive `patch.DefaultPatchMaker.Calculate(current, modified)`: computes
the patch and logs the invocation; the outside state and the label map are
untouched (the calculator only serialises its arguments). -/
def Calculate {σ : Type} (pm : PatchMaker) (currentObject modifiedObject : Object)
    (w : World σ) : Except Error PatchResult × World σ :=
  let res := pm.Calculate currentObject modifiedObject
  (res, { state := w.state,
          calls := w.calls ++ [Call.Calculate currentObject modifiedObject (errOf res)],
          labels := w.labels })

/-! ## The desired-state templates -/

/-- Go `labelsManilaControllerPlugin`: the content the package-level map is
initialised with.  What it holds later is `World.labels`. -/
def labelsManilaControllerPlugin : LabelMap :=
  [("app", "openstack-manila-csi"), ("component", "controllerplugin")]

/-- The `sa` literal of `handleManilaControllerPluginServiceAccount`, built when
the label map holds `labels`. -/
def sa (labels : LabelMap) : ServiceAccount :=
  { ObjectMeta :=
      { Name := "openstack-manila-csi-controllerplugin",
        Namespace := "openshift-manila-csi-driver",
        Labels := labels } }

/-- The `cr` literal of `handleManilaControllerPluginClusterRole`, built when
the label map holds `labels`. -/
def cr (labels : LabelMap) : ClusterRole :=
  { ObjectMeta :=
      { Name := "openstack-manila-csi-controllerplugin",
        Labels := labels },
    Rules :=
      [ { APIGroups := [""], Resources := ["nodes"],
          Verbs := ["get", "list", "watch"] },
        { APIGroups := [""], Resources := ["secrets"],
          Verbs := ["get", "list"] },
        { APIGroups := [""], Resources := ["persistentvolumes"],
          Verbs := ["get", "list", "watch", "create", "delete"] },
        { APIGroups := [""], Resources := ["persistentvolumeclaims"],
          Verbs := ["get", "list", "watch", "update"] },
        { APIGroups := [""], Resources := ["events"],
          Verbs := ["list", "watch", "create", "update", "patch"] },
        { APIGroups := ["storage.k8s.io"], Resources := ["storageclasses"],
          Verbs := ["get", "list", "watch"] },
        { APIGroups := ["storage.k8s.io"], Resources := ["csinodes"],
          Verbs := ["get", "list", "watch"] },
        { APIGroups := ["snapshot.storage.k8s.io"], Resources := ["volumesnapshotclasses"],
          Verbs := ["get", "list", "watch"] },
        { APIGroups := ["snapshot.storage.k8s.io"], Resources := ["volumesnapshotcontents"],
          Verbs := ["create", "get", "list", "watch", "update", "delete"] },
        { APIGroups := ["snapshot.storage.k8s.io"], Resources := ["volumesnapshots"],
          Verbs := ["get", "list", "watch", "update"] },
        { APIGroups := ["snapshot.storage.k8s.io"], Resources := ["volumesnapshots/status"],
          Verbs := ["update"] },
        { APIGroups := ["apiextensions.k8s.io"], Resources := ["customresourcedefinitions"],
          Verbs := ["create", "list", "watch", "delete", "get", "update"] } ] }

/-- The `crb` literal of `handleManilaControllerPluginClusterRoleBinding`, built
when the label map holds `labels`. -/
def crb (labels : LabelMap) : ClusterRoleBinding :=
  { ObjectMeta :=
      { Name := "openstack-manila-csi-controllerplugin",
        Labels := labels },
    Subjects :=
      [ { Kind := "ServiceAccount",
          Name := "openstack-manila-csi-controllerplugin",
          Namespace := "openshift-manila-csi-driver" } ],
    RoleRef :=
      { Kind := "ClusterRole",
        Name := "openstack-manila-csi-controllerplugin",
        APIGroup := "rbac.authorization.k8s.io" } }

/-- The `role` literal of `handleManilaControllerPluginRole`, built when the
label map holds `labels`. -/
def role (labels : LabelMap) : Role :=
  { ObjectMeta :=
      { Name := "openstack-manila-csi-controllerplugin",
        Namespace := "openshift-manila-csi-driver",
        Labels := labels },
    Rules :=
      [ { APIGroups := [""], Resources := ["endpoints"],
          Verbs := ["get", "watch", "list", "delete", "update", "create"] },
        { APIGroups := [""], Resources := ["configmaps"],
          Verbs := ["get", "list", "watch", "create", "delete"] } ] }

/-- The `rb` literal of `handleManilaControllerPluginRoleBinding`, built when
the label map holds `labels`. -/
def rb (labels : LabelMap) : RoleBinding :=
  { ObjectMeta :=
      { Name := "openstack-manila-csi-controllerplugin",
        Namespace := "openshift-manila-csi-driver",
        Labels := labels },
    Subjects :=
      [ { Kind := "ServiceAccount",
          Name := "openstack-manila-csi-controllerplugin",
          Namespace := "openshift-manila-csi-driver" } ],
    RoleRef :=
      { Kind := "Role",
        Name := "openstack-manila-csi-controllerplugin",
        APIGroup := "rbac.authorization.k8s.io" } }

/-! ## The five handlers

Each handler builds its template on entry, from the label map as it is then
(`w.labels`).  Neither `Get` nor `Calculate` writes the map, so this is also
what the template holds when it is passed to `Create` or `Update`. -/

/-- Go `handleManilaControllerPluginServiceAccount`. -/
def handleManilaControllerPluginServiceAccount {σ : Type} (r : ReconcileManilaDriver σ)
    (pm : PatchMaker) (w : World σ) : Option Error × World σ :=
  -- Define a new ServiceAccount object
  let sa := sa w.labels
  -- Check if this ServiceAccount already exists
  match Get r Kind.ServiceAccount
      { Name := sa.ObjectMeta.Name, Namespace := sa.ObjectMeta.Namespace } w with
  | (Except.error err, w1) =>
    if IsNotFound err then
      match Create r (Object.ServiceAccount sa) w1 with
      | (some err, w2) => (some err, w2)
      -- ServiceAccount created successfully - don't requeue
      | (none, w2) => (none, w2)
    else
      (some err, w1)
  | (Except.ok found, w1) =>
    -- Check if we need to update the object
    match Calculate pm found (Object.ServiceAccount sa) w1 with
    | (Except.error err, w2) => (some err, w2)
    | (Except.ok patchResult, w2) =>
      if !patchResult.IsEmpty then
        match Update r (Object.ServiceAccount sa) w2 with
        | (some err, w3) => (some err, w3)
        | (none, w3) => (none, w3)
      else
        -- ServiceAccount already exists - don't requeue
        (none, w2)

/-- Go `handleManilaControllerPluginClusterRole`. -/
def handleManilaControllerPluginClusterRole {σ : Type} (r : ReconcileManilaDriver σ)
    (pm : PatchMaker) (w : World σ) : Option Error × World σ :=
  -- Define a new ClusterRole object
  let cr := cr w.labels
  -- Check if this ClusterRole already exists
  match Get r Kind.ClusterRole { Name := cr.ObjectMeta.Name, Namespace := "" } w with
  | (Except.error err, w1) =>
    if IsNotFound err then
      match Create r (Object.ClusterRole cr) w1 with
      | (some err, w2) => (some err, w2)
      -- ClusterRole created successfully - don't requeue
      | (none, w2) => (none, w2)
    else
      (some err, w1)
  | (Except.ok found, w1) =>
    -- Check if we need to update the object
    match Calculate pm found (Object.ClusterRole cr) w1 with
    | (Except.error err, w2) => (some err, w2)
    | (Except.ok patchResult, w2) =>
      if !patchResult.IsEmpty then
        match Update r (Object.ClusterRole cr) w2 with
        | (some err, w3) => (some err, w3)
        | (none, w3) => (none, w3)
      else
        -- ClusterRole already exists - don't requeue
        (none, w2)

/-- Go `handleManilaControllerPluginClusterRoleBinding`. -/
def handleManilaControllerPluginClusterRoleBinding {σ : Type} (r : ReconcileManilaDriver σ)
    (pm : PatchMaker) (w : World σ) : Option Error × World σ :=
  -- Define a new ClusterRoleBinding object
  let crb := crb w.labels
  -- Check if this ClusterRoleBinding already exists
  match Get r Kind.ClusterRoleBinding { Name := crb.ObjectMeta.Name, Namespace := "" } w with
  | (Except.error err, w1) =>
    if IsNotFound err then
      match Create r (Object.ClusterRoleBinding crb) w1 with
      | (some err, w2) => (some err, w2)
      -- ClusterRoleBinding created successfully - don't requeue
      | (none, w2) => (none, w2)
    else
      (some err, w1)
  | (Except.ok found, w1) =>
    -- Check if we need to update the object
    match Calculate pm found (Object.ClusterRoleBinding crb) w1 with
    | (Except.error err, w2) => (some err, w2)
    | (Except.ok patchResult, w2) =>
      if !patchResult.IsEmpty then
        match Update r (Object.ClusterRoleBinding crb) w2 with
        | (some err, w3) => (some err, w3)
        | (none, w3) => (none, w3)
      else
        -- ClusterRoleBinding already exists - don't requeue
        (none, w2)

/-- Go `handleManilaControllerPluginRole`. -/
def handleManilaControllerPluginRole {σ : Type} (r : ReconcileManilaDriver σ)
    (pm : PatchMaker) (w : World σ) : Option Error × World σ :=
  -- Define a new Role object
  let role := role w.labels
  -- Check if this Role already exists
  match Get r Kind.Role
      { Name := role.ObjectMeta.Name, Namespace := role.ObjectMeta.Namespace } w with
  | (Except.error err, w1) =>
    if IsNotFound err then
      match Create r (Object.Role role) w1 with
      | (some err, w2) => (some err, w2)
      -- Role created successfully - don't requeue
      | (none, w2) => (none, w2)
    else
      (some err, w1)
  | (Except.ok found, w1) =>
    -- Check if we need to update the object
    match Calculate pm found (Object.Role role) w1 with
    | (Except.error err, w2) => (some err, w2)
    | (Except.ok patchResult, w2) =>
      if !patchResult.IsEmpty then
        match Update r (Object.Role role) w2 with
        | (some err, w3) => (some err, w3)
        | (none, w3) => (none, w3)
      else
        -- Role already exists - don't requeue
        (none, w2)

/-- Go `handleManilaControllerPluginRoleBinding`. -/
def handleManilaControllerPluginRoleBinding {σ : Type} (r : ReconcileManilaDriver σ)
    (pm : PatchMaker) (w : World σ) : Option Error × World σ :=
  -- Define a new RoleBinding object
  let rb := rb w.labels
  -- Check if this RoleBinding already exists
  match Get r Kind.RoleBinding
      { Name := rb.ObjectMeta.Name, Namespace := rb.ObjectMeta.Namespace } w with
  | (Except.error err, w1) =>
    if IsNotFound err then
      match Create r (Object.RoleBinding rb) w1 with
      | (some err, w2) => (some err, w2)
      -- RoleBinding created successfully - don't requeue
      | (none, w2) => (none, w2)
    else
      (some err, w1)
  | (Except.ok found, w1) =>
    -- Check if we need to update the object
    match Calculate pm found (Object.RoleBinding rb) w1 with
    | (Except.error err, w2) => (some err, w2)
    | (Except.ok patchResult, w2) =>
      if !patchResult.IsEmpty then
        match Update r (Object.RoleBinding rb) w2 with
        | (some err, w3) => (some err, w3)
        | (none, w3) => (none, w3)
      else
        -- RoleBinding already exists - don't requeue
        (none, w2)

/-- Go `handleManilaControllerPluginRBAC`. -/
def handleManilaControllerPluginRBAC {σ : Type} (r : ReconcileManilaDriver σ)
    (pm : PatchMaker) (w : World σ) : Option Error × World σ :=
  -- Manila Controller Plugin Service Account
  match handleManilaControllerPluginServiceAccount r pm w with
  | (some err, w1) => (some err, w1)
  | (none, w1) =>
    -- Manila Controller Plugin Cluster Role
    match handleManilaControllerPluginClusterRole r pm w1 with
    | (some err, w2) => (some err, w2)
    | (none, w2) =>
      -- Manila Controller Plugin Cluster Role Binding
      match handleManilaControllerPluginClusterRoleBinding r pm w2 with
      | (some err, w3) => (some err, w3)
      | (none, w3) =>
        -- Manila Controller Plugin Role
        match handleManilaControllerPluginRole r pm w3 with
        | (some err, w4) => (some err, w4)
        | (none, w4) =>
          -- Manila Controller Plugin Role Binding
          match handleManilaControllerPluginRoleBinding r pm w4 with
          | (some err, w5) => (some err, w5)
          | (none, w5) => (none, w5)

/-! ## The handlers as a family, and reading the call log -/

/-- The five RBAC handlers. -/
inductive Handler where
  | ServiceAccount
  | ClusterRole
  | ClusterRoleBinding
  | Role
  | RoleBinding
deriving DecidableEq, Repr

/-- The Go function a handler name stands for. -/
def Handler.run {σ : Type} : Handler → ReconcileManilaDriver σ → PatchMaker → World σ →
    Option Error × World σ
  | Handler.ServiceAccount => handleManilaControllerPluginServiceAccount
  | Handler.ClusterRole => handleManilaControllerPluginClusterRole
  | Handler.ClusterRoleBinding => handleManilaControllerPluginClusterRoleBinding
  | Handler.Role => handleManilaControllerPluginRole
  | Handler.RoleBinding => handleManilaControllerPluginRoleBinding

/-- The desired template a handler builds when the label map holds `labels`. -/
def Handler.desired : Handler → LabelMap → Object
  | Handler.ServiceAccount, labels => Object.ServiceAccount (sa labels)
  | Handler.ClusterRole, labels => Object.ClusterRole (cr labels)
  | Handler.ClusterRoleBinding, labels => Object.ClusterRoleBinding (crb labels)
  | Handler.Role, labels => Object.Role (role labels)
  | Handler.RoleBinding, labels => Object.RoleBinding (rb labels)

/-- The namespace/name part of an object's identity. -/
def Object.namespacedName (o : Object) : NamespacedName :=
  { Name := o.objectMeta.Name, Namespace := o.objectMeta.Namespace }

/-- The identity (kind, namespace, name) under which the store files objects. -/
abbrev Identity := Kind × NamespacedName

/-- The identity of an object. -/
def Object.identity (o : Object) : Identity := (o.kind, o.namespacedName)

/-- The kind a handler manages. -/
def Handler.kind (h : Handler) : Kind := (h.desired labelsManilaControllerPlugin).kind

/-- The namespace and name a handler fetches at. -/
def Handler.key (h : Handler) : NamespacedName :=
  (h.desired labelsManilaControllerPlugin).namespacedName

/-- The desired identity of a handler; it does not depend on the label map
(`Handler.desired_identity`). -/
def Handler.identity (h : Handler) : Identity := (h.kind, h.key)

/-- The fetch a handler performs first, as a call on the raw collaborator. -/
def Handler.fetch {σ : Type} (h : Handler) (r : ReconcileManilaDriver σ) (s : σ) :
    Except Error Object × σ :=
  r.apiReaderGet h.kind h.key s

/-- One run of a handler from outside state `s`, with an empty call log and the
label map holding `labels`. -/
def Handler.runFresh {σ : Type} (h : Handler) (r : ReconcileManilaDriver σ) (pm : PatchMaker)
    (s : σ) (labels : LabelMap) : Option Error × World σ :=
  h.run r pm { state := s, calls := [], labels := labels }

/-- The objects passed to `Create`, in call order. -/
def creates (calls : List Call) : List Object :=
  calls.filterMap fun c => match c with
    | Call.Create obj _ => some obj
    | _ => none

/-- The objects passed to `Update`, in call order. -/
def updates (calls : List Call) : List Object :=
  calls.filterMap fun c => match c with
    | Call.Update obj _ => some obj
    | _ => none

/-- The argument pairs of the patch-calculator invocations, in call order. -/
def calculations (calls : List Call) : List (Object × Object) :=
  calls.filterMap fun c => match c with
    | Call.Calculate cur modified _ => some (cur, modified)
    | _ => none

/-- A store call that failed: a `Create` or `Update` that returned an error, or
a `Get` that returned an error other than not-found.  The patch calculator is
not a store call. -/
def Call.storeFailure : Call → Bool
  | Call.Get _ _ (some err) => !IsNotFound err
  | Call.Get _ _ none => false
  | Call.Create _ err => err.isSome
  | Call.Update _ err => err.isSome
  | Call.Calculate _ _ _ => false

/-- The identity a store call addresses (`none` for the patch calculator). -/
def Call.target : Call → Option Identity
  | Call.Get kind key _ => some (kind, key)
  | Call.Create obj _ => some obj.identity
  | Call.Update obj _ => some obj.identity
  | Call.Calculate _ _ _ => none

/-- The reconcile pattern all five handlers instantiate, with the template
built on entry as a parameter.  It is used only to reason about the five
handlers at once; each handler is shown equal to its instance in
`Handler.run_eq_reconcile`. -/
def reconcile {σ : Type} (desired : Object) (r : ReconcileManilaDriver σ)
    (pm : PatchMaker) (w : World σ) : Option Error × World σ :=
  match Get r desired.kind desired.namespacedName w with
  | (Except.error err, w1) =>
    if IsNotFound err then
      match Create r desired w1 with
      | (some err, w2) => (some err, w2)
      | (none, w2) => (none, w2)
    else
      (some err, w1)
  | (Except.ok found, w1) =>
    match Calculate pm found desired w1 with
    | (Except.error err, w2) => (some err, w2)
    | (Except.ok patchResult, w2) =>
      if !patchResult.IsEmpty then
        match Update r desired w2 with
        | (some err, w3) => (some err, w3)
        | (none, w3) => (none, w3)
      else
        (none, w2)

/-- Running handlers one after the other in the order of the list, stopping at
the first one that returns an error and returning that error; the handlers
after it are not run. -/
def runInOrder {σ : Type} (r : ReconcileManilaDriver σ) (pm : PatchMaker) :
    List Handler → World σ → Option Error × World σ
  | [], w => (none, w)
  | h :: hs, w =>
    match h.run r pm w with
    | (some err, w1) => (some err, w1)
    | (none, w1) => runInOrder r pm hs w1

/-! ## A cluster object store -/

/-- The contents of the store: at most one object per identity. -/
abbrev Store := Identity → Option Object

/-- Go `errors.NewNotFound`. -/
def NewNotFound (id : Identity) : Error :=
  { Reason := "NotFound", Message := id.2.Name ++ " not found" }

/-- Go `errors.NewAlreadyExists`. -/
def NewAlreadyExists (id : Identity) : Error :=
  { Reason := "AlreadyExists", Message := id.2.Name ++ " already exists" }

/-- Go map assignment `m[k] = v`. -/
def setLabel : LabelMap → String → String → LabelMap
  | [], k, v => [(k, v)]
  | (k1, v1) :: rest, k, v =>
    if k1 = k then (k, v) :: rest else (k1, v1) :: setLabel rest k v

/-- Decoding a reply's labels into an existing map: every pair of the reply is
assigned; the entries already there are kept. -/
def decodeLabelsInto (m reply : LabelMap) : LabelMap :=
  reply.foldl (fun acc kv => setLabel acc kv.1 kv.2) m

/-- Modelled from the spec: the cluster object store of section 6 (the API
server, an external collaborator), keyed by (kind, namespace, name).  `get`
returns the stored object or not-found; `create` files the object under its
identity unless one is there; `update` replaces the object under its identity
if one is there.  `persist old obj` is what the server stores when `obj` is
submitted over the previous content `old` (it may assign fields such as the
UID and the resource version, or change labels).  A successful `create` or
`update` replies with the stored object, and the client decodes the reply into
the object it was given: the labels of the reply are assigned into that
object's label map.  A failed call leaves the map as it was. -/
def clusterStore (persist : Option Object → Object → Object) : ReconcileManilaDriver Store :=
  { apiReaderGet := fun kind key s =>
      match s (kind, key) with
      | some o => (Except.ok o, s)
      | none => (Except.error (NewNotFound (kind, key)), s),
    clientCreate := fun obj s =>
      match s obj.identity with
      | some _ =>
        { err := some (NewAlreadyExists obj.identity), state := s,
          labels := obj.objectMeta.Labels }
      | none =>
        { err := none,
          state := Function.update s obj.identity (some (persist none obj)),
          labels := decodeLabelsInto obj.objectMeta.Labels
            (persist none obj).objectMeta.Labels },
    clientUpdate := fun obj s =>
      match s obj.identity with
      | none =>
        { err := some (NewNotFound obj.identity), state := s,
          labels := obj.objectMeta.Labels }
      | some old =>
        { err := none,
          state := Function.update s obj.identity (some (persist (some old) obj)),
          labels := decodeLabelsInto obj.objectMeta.Labels
            (persist (some old) obj).objectMeta.Labels } }

/-- The server-assigned metadata erased. -/
def ObjectMeta.managed (m : ObjectMeta) : ObjectMeta :=
  { m with ResourceVersion := "", UID := "" }

/-- An object with the fields no template sets erased: the server-assigned
metadata and the secrets of a service account. -/
def Object.managed : Object → Object
  | Object.ServiceAccount o =>
    Object.ServiceAccount { ObjectMeta := o.ObjectMeta.managed, Secrets := [] }
  | Object.ClusterRole o => Object.ClusterRole { o with ObjectMeta := o.ObjectMeta.managed }
  | Object.ClusterRoleBinding o =>
    Object.ClusterRoleBinding { o with ObjectMeta := o.ObjectMeta.managed }
  | Object.Role o => Object.Role { o with ObjectMeta := o.ObjectMeta.managed }
  | Object.RoleBinding o => Object.RoleBinding { o with ObjectMeta := o.ObjectMeta.managed }

/-- Modelled from the spec: the Diff Engine of section 4.1 (the patch
calculator is a third-party library), a structural diff restricted to the
fields the operator manages: the patch is empty exactly when the two objects
agree on them. -/
def diffEngine : PatchMaker :=
  { Calculate := fun currentObject modifiedObject =>
      Except.ok { Patch := if currentObject.managed = modifiedObject.managed then "{}"
                           else "changed" } }

/-- A server that stamps a UID and a resource version on what it stores. -/
def stampServerFields (old : Option Object) (obj : Object) : Object :=
  let stamp (m : ObjectMeta) : ObjectMeta :=
    { m with
      UID := "6f1c2d3e",
      ResourceVersion := match old with
        | none => "1"
        | some o => o.objectMeta.ResourceVersion ++ "1" }
  match obj with
  | Object.ServiceAccount o => Object.ServiceAccount { o with ObjectMeta := stamp o.ObjectMeta }
  | Object.ClusterRole o => Object.ClusterRole { o with ObjectMeta := stamp o.ObjectMeta }
  | Object.ClusterRoleBinding o =>
    Object.ClusterRoleBinding { o with ObjectMeta := stamp o.ObjectMeta }
  | Object.Role o => Object.Role { o with ObjectMeta := stamp o.ObjectMeta }
  | Object.RoleBinding o => Object.RoleBinding { o with ObjectMeta := stamp o.ObjectMeta }

/-- A server that stores service accounts with one more label, as a mutating
admission webhook does, and everything else as submitted. -/
def labelServiceAccounts (_old : Option Object) (obj : Object) : Object :=
  match obj with
  | Object.ServiceAccount o =>
    Object.ServiceAccount
      { o with ObjectMeta :=
          { o.ObjectMeta with
            Labels := setLabel o.ObjectMeta.Labels "injected-by" "webhook" } }
  | other => other

/-- A server that stores every object without its labels. -/
def dropLabels (_old : Option Object) (obj : Object) : Object :=
  match obj with
  | Object.ServiceAccount o =>
    Object.ServiceAccount { o with ObjectMeta := { o.ObjectMeta with Labels := [] } }
  | Object.ClusterRole o =>
    Object.ClusterRole { o with ObjectMeta := { o.ObjectMeta with Labels := [] } }
  | Object.ClusterRoleBinding o =>
    Object.ClusterRoleBinding { o with ObjectMeta := { o.ObjectMeta with Labels := [] } }
  | Object.Role o => Object.Role { o with ObjectMeta := { o.ObjectMeta with Labels := [] } }
  | Object.RoleBinding o =>
    Object.RoleBinding { o with ObjectMeta := { o.ObjectMeta with Labels := [] } }

/-- The store with nothing in it. -/
def emptyStore : Store := fun _ => none

/-! ## `pkg/operator/starter.go`: byte slices and the standard library -/

/-- A Go `byte`. -/
abbrev Byte := Fin 256

/-- Go `[]byte(s)`: the UTF-8 encoding of a string. -/
def bytesOf (s : String) : List Byte :=
  (s.toList.flatMap String.utf8EncodeChar).map fun b => b.val

/-- Go `bytes.Index(s, sep)`: the index of the first instance of `sep` in `s`;
`none` stands for the result `-1` (no instance). -/
def Index : List Byte → List Byte → Option Nat
  | [], sep => if sep = [] then some 0 else none
  | c :: cs, sep =>
    if sep.isPrefixOf (c :: cs) then some 0 else (Index cs sep).map fun i => i + 1

/-- The `for` loop of Go `bytes.Count` for a separator of two or more bytes:
`n` counts the instances found so far and `s` is what remains to be searched.
The first argument bounds the number of iterations; `Count` passes
`len(s) + 1`, which the loop never uses up since every iteration shortens `s`. -/
def countLoop (sep : List Byte) : Nat → List Byte → Nat → Nat
  | 0, _, n => n
  | fuel + 1, s, n =>
    match Index s sep with
    | none => n
    | some i => countLoop sep fuel (s.drop (i + sep.length)) (n + 1)

/-- Go `bytes.Count(s, sep)` for a non-empty `sep`: the number of
non-overlapping instances of `sep` in `s`.  A one-byte separator is counted
byte by byte, as in Go; the empty separator, which Go counts in runes, is
excluded by `_hsep`. -/
def Count (s sep : List Byte) (_hsep : sep ≠ []) : Nat :=
  match sep with
  | [c] => s.count c
  | _ => countLoop sep (s.length + 1) s 0

/-- The replacement loop of Go `bytes.Replace` for a non-empty `old`: `n`
iterations remain, `start` is the read position in `s` and `t` is the output
written so far.  Each iteration copies `s[start:j]` and `new`, where `j` is
`start + Index(s[start:], old)`.  When `Index` returns `-1` the slice
expression `s[start:j]` is out of range and Go panics: the result is `none`. -/
def replaceLoop (s old new : List Byte) : Nat → Nat → List Byte → Option (List Byte)
  | 0, start, t => some (t ++ s.drop start)
  | n + 1, start, t =>
    match Index (s.drop start) old with
    | none => none
    | some k =>
      replaceLoop s old new n (start + k + old.length) (t ++ (s.drop start).take k ++ new)

/-- Go `bytes.Replace(s, old, new, n)` for a non-empty `old`; `none` is a panic. -/
def Replace (s old new : List Byte) (hold : old ≠ []) (n : Int) : Option (List Byte) :=
  -- Compute number of replacements.
  let m := if n ≠ 0 then Count s old hold else 0
  if m = 0 then
    -- Just return a copy.
    some s
  else
    let n := if n < 0 ∨ (m : Int) < n then m else n.toNat
    -- Apply replacements to buffer.
    replaceLoop s old new n 0 []

/-- Go `bytes.ReplaceAll(s, old, new)` for a non-empty `old`. -/
def ReplaceAll (s old new : List Byte) (hold : old ≠ []) : Option (List Byte) :=
  Replace s old new hold (-1)

/-- Go `os.Getenv(key)` over an environment that maps the variables that are
set to their values: the value, or the empty string if the variable is not
present. -/
def Getenv (environ : String → Option String) (key : String) : String :=
  (environ key).getD ""

/-- Go constant `nfsImageEnvName`. -/
def nfsImageEnvName : String := "NFS_DRIVER_IMAGE"

/-- The placeholder `[]byte("${NFS_DRIVER_IMAGE}")`. -/
def placeholder : List Byte := bytesOf "${NFS_DRIVER_IMAGE}"

/-- Go `assetWithNFSDriver`.  `MustAsset` is `generated.MustAsset`, which
returns the embedded file or panics (`none`); `environ` is the process
environment.  The result `none` is a panic. -/
def assetWithNFSDriver (MustAsset : String → Option (List Byte))
    (environ : String → Option String) (file : String) : Option (List Byte) :=
  match MustAsset file with
  | none => none
  | some asset =>
    let nfsImage := Getenv environ nfsImageEnvName
    if nfsImage == "" then
      some asset
    else
      ReplaceAll asset placeholder (bytesOf nfsImage) (by decide)

/-- The pieces of `s` between successive instances of `sep`, found left to
right; the first argument bounds the number of cuts. -/
def splitLoop (sep : List Byte) : Nat → List Byte → List (List Byte)
  | 0, s => [s]
  | fuel + 1, s =>
    match Index s sep with
    | none => [s]
    | some i => s.take i :: splitLoop sep fuel (s.drop (i + sep.length))

/-- The asset split at the placeholder: its segments, in order. -/
def splitAtPlaceholder (asset : List Byte) : List (List Byte) :=
  splitLoop placeholder (asset.length + 1) asset

/-- The segments joined by `v`. -/
def joinedBy (v : List Byte) (segments : List (List Byte)) : List Byte :=
  List.intercalate v segments

/-! ## `pkg/operator/starter.go`: `RunOperator` -/

/-- What the collaborators of `RunOperator` do in one execution: whether
`kubeclient.NewForConfigOrDie` returns (it panics otherwise), the `err` result
of each constructor that has one, and whether the shared context is ever
cancelled. -/
structure ControllerContext where
  NewForConfigOrDie : Bool
  dynamicNewForConfig : Option Error
  NewClusterScopedOperatorClientWithConfigName : Option Error
  NewOpenStackClient : Option Error
  ctxDone : Bool

/-- How a call of `RunOperator` ends: it returns an `error`, it panics, or it
waits for ever on `ctx.Done()`. -/
inductive Termination where
  | returned (err : Option Error)
  | panicked
  | blocked
deriving DecidableEq, Repr

/-- Go `RunOperator`.  Building the controllers and starting the goroutines
has no effect on the value returned and is left out. -/
def RunOperator (controllerConfig : ControllerContext) : Termination :=
  if !controllerConfig.NewForConfigOrDie then
    Termination.panicked
  else
    let err := controllerConfig.dynamicNewForConfig
    if err ≠ none then
      Termination.returned err
    else
      let err := controllerConfig.NewClusterScopedOperatorClientWithConfigName
      if err ≠ none then
        Termination.returned err
      else
        let err := controllerConfig.NewOpenStackClient
        if err ≠ none then
          Termination.returned err
        else if controllerConfig.ctxDone then
          -- <-ctx.Done()
          Termination.returned (some (Errorf "stopped"))
        else
          Termination.blocked

/-- The order in which `handleManilaControllerPluginRBAC` calls the handlers. -/
def rbacOrder : List Handler :=
  [Handler.ServiceAccount, Handler.ClusterRole, Handler.ClusterRoleBinding, Handler.Role,
   Handler.RoleBinding]

/-- What a handler leaves in the store at its identity, given what was there
and what the label map holds: the persisted template if nothing was there or if
the patch is not empty, otherwise what was there. -/
def Handler.settle (h : Handler) (persist : Option Object → Object → Object) (pm : PatchMaker)
    (labels : LabelMap) : Option Object → Option Object
  | none => some (persist none (h.desired labels))
  | some found =>
    match pm.Calculate found (h.desired labels) with
    | Except.error _ => some found
    | Except.ok p =>
      if p.IsEmpty then some found else some (persist (some found) (h.desired labels))

/-- The store and the label map after one handler has run. -/
def Handler.after (h : Handler) (persist : Option Object → Object → Object) (pm : PatchMaker)
    (x : Store × LabelMap) : Store × LabelMap :=
  ((h.runFresh (clusterStore persist) pm x.1 x.2).2.state,
   (h.runFresh (clusterStore persist) pm x.1 x.2).2.labels)

/-! # Properties -/

/-! ## The reconcile pattern -/

theorem Handler.desired_kind (h : Handler) (labels : LabelMap) :
    (h.desired labels).kind = h.kind := by
  cases h <;> rfl

theorem Handler.desired_namespacedName (h : Handler) (labels : LabelMap) :
    (h.desired labels).namespacedName = h.key := by
  cases h <;> rfl

/-- The identity of a template does not depend on the label map. -/
theorem Handler.desired_identity (h : Handler) (labels : LabelMap) :
    (h.desired labels).identity = h.identity := by
  cases h <;> rfl

/-- The labels of a template are the content of the label map. -/
theorem Handler.desired_labels (h : Handler) (labels : LabelMap) :
    (h.desired labels).objectMeta.Labels = labels := by
  cases h <;> rfl

theorem Handler.run_eq_reconcile {σ : Type} (h : Handler) (r : ReconcileManilaDriver σ)
    (pm : PatchMaker) (w : World σ) :
    h.run r pm w = reconcile (h.desired w.labels) r pm w := by
  cases h <;> rfl

theorem errorPair_eta {σ : Type} (x : Option Error × World σ) :
    (match x with
      | (some err, w) => (some err, w)
      | (none, w) => (none, w)) = x := by
  rcases x with ⟨_ | _, _⟩ <;> rfl

/-- The not-found path of the pattern. -/
theorem reconcile_notFound {σ : Type} (desired : Object) (r : ReconcileManilaDriver σ)
    (pm : PatchMaker) (w : World σ) (e : Error)
    (hget : (r.apiReaderGet desired.kind desired.namespacedName w.state).1 = Except.error e)
    (hnf : IsNotFound e = true) :
    reconcile desired r pm w =
      ((r.clientCreate desired
          (r.apiReaderGet desired.kind desired.namespacedName w.state).2).err,
       { state := (r.clientCreate desired
          (r.apiReaderGet desired.kind desired.namespacedName w.state).2).state,
         calls := w.calls ++ [Call.Get desired.kind desired.namespacedName (some e),
            Call.Create desired (r.clientCreate desired
              (r.apiReaderGet desired.kind desired.namespacedName w.state).2).err],
         labels := (r.clientCreate desired
          (r.apiReaderGet desired.kind desired.namespacedName w.state).2).labels }) := by
  simp [reconcile, Get, Create, hget, hnf, errOf, errorPair_eta]

/-- The path on which the fetch fails with an error other than not-found. -/
theorem reconcile_fetchError {σ : Type} (desired : Object) (r : ReconcileManilaDriver σ)
    (pm : PatchMaker) (w : World σ) (e : Error)
    (hget : (r.apiReaderGet desired.kind desired.namespacedName w.state).1 = Except.error e)
    (hnf : IsNotFound e = false) :
    reconcile desired r pm w =
      (some e,
       { state := (r.apiReaderGet desired.kind desired.namespacedName w.state).2,
         calls := w.calls ++ [Call.Get desired.kind desired.namespacedName (some e)],
         labels := w.labels }) := by
  simp [reconcile, Get, hget, hnf, errOf]

/-- The path on which the patch calculator fails. -/
theorem reconcile_calcError {σ : Type} (desired : Object) (r : ReconcileManilaDriver σ)
    (pm : PatchMaker) (w : World σ) (found : Object) (e : Error)
    (hget : (r.apiReaderGet desired.kind desired.namespacedName w.state).1 = Except.ok found)
    (hcalc : pm.Calculate found desired = Except.error e) :
    reconcile desired r pm w =
      (some e,
       { state := (r.apiReaderGet desired.kind desired.namespacedName w.state).2,
         calls := w.calls ++ [Call.Get desired.kind desired.namespacedName none,
            Call.Calculate found desired (some e)],
         labels := w.labels }) := by
  simp [reconcile, Get, Calculate, hget, hcalc, errOf]

/-- The path on which the patch is empty. -/
theorem reconcile_noop {σ : Type} (desired : Object) (r : ReconcileManilaDriver σ)
    (pm : PatchMaker) (w : World σ) (found : Object) (p : PatchResult)
    (hget : (r.apiReaderGet desired.kind desired.namespacedName w.state).1 = Except.ok found)
    (hcalc : pm.Calculate found desired = Except.ok p) (hp : p.IsEmpty = true) :
    reconcile desired r pm w =
      (none,
       { state := (r.apiReaderGet desired.kind desired.namespacedName w.state).2,
         calls := w.calls ++ [Call.Get desired.kind desired.namespacedName none,
            Call.Calculate found desired none],
         labels := w.labels }) := by
  simp [reconcile, Get, Calculate, hget, hcalc, hp, errOf]

/-- The path on which the patch is not empty. -/
theorem reconcile_update {σ : Type} (desired : Object) (r : ReconcileManilaDriver σ)
    (pm : PatchMaker) (w : World σ) (found : Object) (p : PatchResult)
    (hget : (r.apiReaderGet desired.kind desired.namespacedName w.state).1 = Except.ok found)
    (hcalc : pm.Calculate found desired = Except.ok p) (hp : p.IsEmpty = false) :
    reconcile desired r pm w =
      ((r.clientUpdate desired
          (r.apiReaderGet desired.kind desired.namespacedName w.state).2).err,
       { state := (r.clientUpdate desired
          (r.apiReaderGet desired.kind desired.namespacedName w.state).2).state,
         calls := w.calls ++ [Call.Get desired.kind desired.namespacedName none,
            Call.Calculate found desired none,
            Call.Update desired (r.clientUpdate desired
              (r.apiReaderGet desired.kind desired.namespacedName w.state).2).err],
         labels := (r.clientUpdate desired
          (r.apiReaderGet desired.kind desired.namespacedName w.state).2).labels }) := by
  simp [reconcile, Get, Calculate, Update, hget, hcalc, hp, errOf, errorPair_eta]

/-- The five paths of the pattern. -/
theorem reconcile_paths {σ : Type} (desired : Object) (r : ReconcileManilaDriver σ)
    (pm : PatchMaker) (s : σ) :
    (∃ e, (r.apiReaderGet desired.kind desired.namespacedName s).1 = Except.error e ∧
        IsNotFound e = true) ∨
    (∃ e, (r.apiReaderGet desired.kind desired.namespacedName s).1 = Except.error e ∧
        IsNotFound e = false) ∨
    (∃ found e, (r.apiReaderGet desired.kind desired.namespacedName s).1 = Except.ok found ∧
        pm.Calculate found desired = Except.error e) ∨
    (∃ found p, (r.apiReaderGet desired.kind desired.namespacedName s).1 = Except.ok found ∧
        pm.Calculate found desired = Except.ok p ∧ p.IsEmpty = true) ∨
    (∃ found p, (r.apiReaderGet desired.kind desired.namespacedName s).1 = Except.ok found ∧
        pm.Calculate found desired = Except.ok p ∧ p.IsEmpty = false) := by
  cases hg : (r.apiReaderGet desired.kind desired.namespacedName s).1 with
  | error e =>
    cases hnf : IsNotFound e
    · exact Or.inr (Or.inl ⟨e, rfl, hnf⟩)
    · exact Or.inl ⟨e, rfl, hnf⟩
  | ok found =>
    cases hc : pm.Calculate found desired with
    | error e => exact Or.inr (Or.inr (Or.inl ⟨found, e, rfl, hc⟩))
    | ok p =>
      cases hp : p.IsEmpty
      · exact Or.inr (Or.inr (Or.inr (Or.inr ⟨found, p, rfl, hc, hp⟩)))
      · exact Or.inr (Or.inr (Or.inr (Or.inl ⟨found, p, rfl, hc, hp⟩)))

/-- The handler-level form of the path lemmas: a run from an empty log, with
the fetch written as `Handler.fetch`. -/
theorem Handler.runFresh_eq {σ : Type} (h : Handler) (r : ReconcileManilaDriver σ)
    (pm : PatchMaker) (s : σ) (labels : LabelMap) :
    h.runFresh r pm s labels =
      reconcile (h.desired labels) r pm { state := s, calls := [], labels := labels } ∧
    (r.apiReaderGet (h.desired labels).kind (h.desired labels).namespacedName s) =
      h.fetch r s := by
  refine ⟨Handler.run_eq_reconcile h r pm _, ?_⟩
  rw [Handler.desired_kind, Handler.desired_namespacedName]
  rfl

/-- A run only appends to the call log, and what it does is independent of
the log it starts with. -/
theorem Handler.run_append {σ : Type} (h : Handler) (r : ReconcileManilaDriver σ)
    (pm : PatchMaker) (w : World σ) :
    h.run r pm w =
      ((h.runFresh r pm w.state w.labels).1,
       { state := (h.runFresh r pm w.state w.labels).2.state,
         calls := w.calls ++ (h.runFresh r pm w.state w.labels).2.calls,
         labels := (h.runFresh r pm w.state w.labels).2.labels }) := by
  simp only [Handler.runFresh, Handler.run_eq_reconcile]
  rcases reconcile_paths (h.desired w.labels) r pm w.state with
    ⟨e, hg, hnf⟩ | ⟨e, hg, hnf⟩ | ⟨found, e, hg, hc⟩ | ⟨found, p, hg, hc, hp⟩ |
    ⟨found, p, hg, hc, hp⟩
  · rw [reconcile_notFound _ _ _ w e hg hnf,
      reconcile_notFound _ _ _ ⟨w.state, [], w.labels⟩ e hg hnf]
    simp
  · rw [reconcile_fetchError _ _ _ w e hg hnf,
      reconcile_fetchError _ _ _ ⟨w.state, [], w.labels⟩ e hg hnf]
    simp
  · rw [reconcile_calcError _ _ _ w found e hg hc,
      reconcile_calcError _ _ _ ⟨w.state, [], w.labels⟩ found e hg hc]
    simp
  · rw [reconcile_noop _ _ _ w found p hg hc hp,
      reconcile_noop _ _ _ ⟨w.state, [], w.labels⟩ found p hg hc hp]
    simp
  · rw [reconcile_update _ _ _ w found p hg hc hp,
      reconcile_update _ _ _ ⟨w.state, [], w.labels⟩ found p hg hc hp]
    simp

/-! ## The five paths of a handler run -/

theorem Handler.run_notFound {σ : Type} (h : Handler) (r : ReconcileManilaDriver σ)
    (pm : PatchMaker) (s : σ) (labels : LabelMap) (e : Error)
    (hget : (h.fetch r s).1 = Except.error e) (hnf : IsNotFound e = true) :
    h.runFresh r pm s labels =
      ((r.clientCreate (h.desired labels) (h.fetch r s).2).err,
       { state := (r.clientCreate (h.desired labels) (h.fetch r s).2).state,
         calls := [Call.Get h.kind h.key (some e),
            Call.Create (h.desired labels)
              (r.clientCreate (h.desired labels) (h.fetch r s).2).err],
         labels := (r.clientCreate (h.desired labels) (h.fetch r s).2).labels }) := by
  have hfetch := (Handler.runFresh_eq h r pm s labels).2
  rw [(Handler.runFresh_eq h r pm s labels).1,
    reconcile_notFound _ _ _ _ e (by rw [hfetch]; exact hget) hnf]
  simp only [Handler.desired_kind, Handler.desired_namespacedName, List.nil_append]
  rfl

theorem Handler.run_fetchError {σ : Type} (h : Handler) (r : ReconcileManilaDriver σ)
    (pm : PatchMaker) (s : σ) (labels : LabelMap) (e : Error)
    (hget : (h.fetch r s).1 = Except.error e) (hnf : IsNotFound e = false) :
    h.runFresh r pm s labels =
      (some e,
       { state := (h.fetch r s).2,
         calls := [Call.Get h.kind h.key (some e)],
         labels := labels }) := by
  have hfetch := (Handler.runFresh_eq h r pm s labels).2
  rw [(Handler.runFresh_eq h r pm s labels).1,
    reconcile_fetchError _ _ _ _ e (by rw [hfetch]; exact hget) hnf]
  simp only [Handler.desired_kind, Handler.desired_namespacedName, List.nil_append]
  rfl

theorem Handler.run_calcError {σ : Type} (h : Handler) (r : ReconcileManilaDriver σ)
    (pm : PatchMaker) (s : σ) (labels : LabelMap) (found : Object) (e : Error)
    (hget : (h.fetch r s).1 = Except.ok found)
    (hcalc : pm.Calculate found (h.desired labels) = Except.error e) :
    h.runFresh r pm s labels =
      (some e,
       { state := (h.fetch r s).2,
         calls := [Call.Get h.kind h.key none,
            Call.Calculate found (h.desired labels) (some e)],
         labels := labels }) := by
  have hfetch := (Handler.runFresh_eq h r pm s labels).2
  rw [(Handler.runFresh_eq h r pm s labels).1,
    reconcile_calcError _ _ _ _ found e (by rw [hfetch]; exact hget) hcalc]
  simp only [Handler.desired_kind, Handler.desired_namespacedName, List.nil_append]
  rfl

theorem Handler.run_noop {σ : Type} (h : Handler) (r : ReconcileManilaDriver σ)
    (pm : PatchMaker) (s : σ) (labels : LabelMap) (found : Object) (p : PatchResult)
    (hget : (h.fetch r s).1 = Except.ok found)
    (hcalc : pm.Calculate found (h.desired labels) = Except.ok p) (hp : p.IsEmpty = true) :
    h.runFresh r pm s labels =
      (none,
       { state := (h.fetch r s).2,
         calls := [Call.Get h.kind h.key none,
            Call.Calculate found (h.desired labels) none],
         labels := labels }) := by
  have hfetch := (Handler.runFresh_eq h r pm s labels).2
  rw [(Handler.runFresh_eq h r pm s labels).1,
    reconcile_noop _ _ _ _ found p (by rw [hfetch]; exact hget) hcalc hp]
  simp only [Handler.desired_kind, Handler.desired_namespacedName, List.nil_append]
  rfl

theorem Handler.run_update {σ : Type} (h : Handler) (r : ReconcileManilaDriver σ)
    (pm : PatchMaker) (s : σ) (labels : LabelMap) (found : Object) (p : PatchResult)
    (hget : (h.fetch r s).1 = Except.ok found)
    (hcalc : pm.Calculate found (h.desired labels) = Except.ok p) (hp : p.IsEmpty = false) :
    h.runFresh r pm s labels =
      ((r.clientUpdate (h.desired labels) (h.fetch r s).2).err,
       { state := (r.clientUpdate (h.desired labels) (h.fetch r s).2).state,
         calls := [Call.Get h.kind h.key none,
            Call.Calculate found (h.desired labels) none,
            Call.Update (h.desired labels)
              (r.clientUpdate (h.desired labels) (h.fetch r s).2).err],
         labels := (r.clientUpdate (h.desired labels) (h.fetch r s).2).labels }) := by
  have hfetch := (Handler.runFresh_eq h r pm s labels).2
  rw [(Handler.runFresh_eq h r pm s labels).1,
    reconcile_update _ _ _ _ found p (by rw [hfetch]; exact hget) hcalc hp]
  simp only [Handler.desired_kind, Handler.desired_namespacedName, List.nil_append]
  rfl

/-- The five paths of a handler run. -/
theorem Handler.paths {σ : Type} (h : Handler) (r : ReconcileManilaDriver σ)
    (pm : PatchMaker) (s : σ) (labels : LabelMap) :
    (∃ e, (h.fetch r s).1 = Except.error e ∧ IsNotFound e = true) ∨
    (∃ e, (h.fetch r s).1 = Except.error e ∧ IsNotFound e = false) ∨
    (∃ found e, (h.fetch r s).1 = Except.ok found ∧
        pm.Calculate found (h.desired labels) = Except.error e) ∨
    (∃ found p, (h.fetch r s).1 = Except.ok found ∧
        pm.Calculate found (h.desired labels) = Except.ok p ∧ p.IsEmpty = true) ∨
    (∃ found p, (h.fetch r s).1 = Except.ok found ∧
        pm.Calculate found (h.desired labels) = Except.ok p ∧ p.IsEmpty = false) := by
  have hpaths := reconcile_paths (h.desired labels) r pm s
  rw [(Handler.runFresh_eq h r pm s labels).2] at hpaths
  exact hpaths

/-! ## Sequencing -/

theorem runInOrder_append {σ : Type} (r : ReconcileManilaDriver σ) (pm : PatchMaker)
    (before after : List Handler) (w : World σ) :
    runInOrder r pm (before ++ after) w =
      match runInOrder r pm before w with
      | (some err, w1) => (some err, w1)
      | (none, w1) => runInOrder r pm after w1 := by
  induction before generalizing w with
  | nil => simp [runInOrder]
  | cons h hs ih =>
    simp only [List.cons_append, runInOrder]
    rcases hrun : h.run r pm w with ⟨_ | e, w1⟩
    · simp [ih]
    · simp

/-- If the handlers before `h` return `nil` and `h` returns an error, the
sequence ends with that error in the world `h` left: nothing after `h` runs. -/
theorem runInOrder_stops {σ : Type} (r : ReconcileManilaDriver σ) (pm : PatchMaker)
    (before after : List Handler) (h : Handler) (w : World σ) (e : Error)
    (hbefore : (runInOrder r pm before w).1 = none)
    (hfail : (h.run r pm (runInOrder r pm before w).2).1 = some e) :
    runInOrder r pm (before ++ h :: after) w =
      (some e, (h.run r pm (runInOrder r pm before w).2).2) := by
  rw [runInOrder_append]
  rcases hb : runInOrder r pm before w with ⟨_ | e1, w1⟩
  · rw [hb] at hfail
    simp only [runInOrder]
    rcases hh : h.run r pm w1 with ⟨_ | e2, w2⟩
    · rw [hh] at hfail
      cases hfail
    · rw [hh] at hfail
      simp at hfail
      simp [hfail]
  · rw [hb] at hbefore
    cases hbefore

theorem rbac_eq_runInOrder {σ : Type} (r : ReconcileManilaDriver σ) (pm : PatchMaker)
    (w : World σ) :
    handleManilaControllerPluginRBAC r pm w = runInOrder r pm rbacOrder w := by
  rfl

/-! ## The handlers on the cluster object store -/

theorem Handler.identity_ne {h1 h2 : Handler} (hne : h1 ≠ h2) :
    h1.identity ≠ h2.identity := by
  cases h1 <;> cases h2 <;> first | exact absurd rfl hne | decide

theorem Handler.kind_ne {h1 h2 : Handler} (hne : h1 ≠ h2) : h1.kind ≠ h2.kind := by
  cases h1 <;> cases h2 <;> first | exact absurd rfl hne | decide

theorem clusterStore_fetch_absent (h : Handler) (persist : Option Object → Object → Object)
    (s : Store) (habsent : s h.identity = none) :
    h.fetch (clusterStore persist) s = (Except.error (NewNotFound h.identity), s) := by
  have hs : s (h.kind, h.key) = none := habsent
  simp [Handler.fetch, clusterStore, hs, Handler.identity]

theorem clusterStore_fetch_present (h : Handler) (persist : Option Object → Object → Object)
    (s : Store) (found : Object) (hpresent : s h.identity = some found) :
    h.fetch (clusterStore persist) s = (Except.ok found, s) := by
  have hs : s (h.kind, h.key) = some found := hpresent
  simp [Handler.fetch, clusterStore, hs]

theorem clusterStore_run_absent (h : Handler) (persist : Option Object → Object → Object)
    (pm : PatchMaker) (s : Store) (labels : LabelMap) (habsent : s h.identity = none) :
    h.runFresh (clusterStore persist) pm s labels =
      (none,
       { state := Function.update s h.identity (some (persist none (h.desired labels))),
         calls := [Call.Get h.kind h.key (some (NewNotFound h.identity)),
                   Call.Create (h.desired labels) none],
         labels := decodeLabelsInto labels
           (persist none (h.desired labels)).objectMeta.Labels }) := by
  have hfetch := clusterStore_fetch_absent h persist s habsent
  rw [Handler.run_notFound h (clusterStore persist) pm s labels (NewNotFound h.identity)
    (by rw [hfetch]) rfl, hfetch]
  simp [clusterStore, Handler.desired_identity, Handler.desired_labels, habsent]

theorem clusterStore_run_calcError (h : Handler) (persist : Option Object → Object → Object)
    (pm : PatchMaker) (s : Store) (labels : LabelMap) (found : Object) (e : Error)
    (hpresent : s h.identity = some found)
    (hcalc : pm.Calculate found (h.desired labels) = Except.error e) :
    h.runFresh (clusterStore persist) pm s labels =
      (some e,
       { state := s,
         calls := [Call.Get h.kind h.key none,
                   Call.Calculate found (h.desired labels) (some e)],
         labels := labels }) := by
  have hfetch := clusterStore_fetch_present h persist s found hpresent
  rw [Handler.run_calcError h (clusterStore persist) pm s labels found e
    (by rw [hfetch]) hcalc, hfetch]

theorem clusterStore_run_noop (h : Handler) (persist : Option Object → Object → Object)
    (pm : PatchMaker) (s : Store) (labels : LabelMap) (found : Object) (p : PatchResult)
    (hpresent : s h.identity = some found)
    (hcalc : pm.Calculate found (h.desired labels) = Except.ok p) (hp : p.IsEmpty = true) :
    h.runFresh (clusterStore persist) pm s labels =
      (none,
       { state := s,
         calls := [Call.Get h.kind h.key none,
                   Call.Calculate found (h.desired labels) none],
         labels := labels }) := by
  have hfetch := clusterStore_fetch_present h persist s found hpresent
  rw [Handler.run_noop h (clusterStore persist) pm s labels found p
    (by rw [hfetch]) hcalc hp, hfetch]

theorem clusterStore_run_update (h : Handler) (persist : Option Object → Object → Object)
    (pm : PatchMaker) (s : Store) (labels : LabelMap) (found : Object) (p : PatchResult)
    (hpresent : s h.identity = some found)
    (hcalc : pm.Calculate found (h.desired labels) = Except.ok p) (hp : p.IsEmpty = false) :
    h.runFresh (clusterStore persist) pm s labels =
      (none,
       { state := Function.update s h.identity
           (some (persist (some found) (h.desired labels))),
         calls := [Call.Get h.kind h.key none,
                   Call.Calculate found (h.desired labels) none,
                   Call.Update (h.desired labels) none],
         labels := decodeLabelsInto labels
           (persist (some found) (h.desired labels)).objectMeta.Labels }) := by
  have hfetch := clusterStore_fetch_present h persist s found hpresent
  rw [Handler.run_update h (clusterStore persist) pm s labels found p
    (by rw [hfetch]) hcalc hp, hfetch]
  simp [clusterStore, Handler.desired_identity, Handler.desired_labels, hpresent]

/-- The store a run leaves differs from the one it found at most at the
handler's identity, where it holds what `settle` says. -/
theorem clusterStore_run_state (h : Handler) (persist : Option Object → Object → Object)
    (pm : PatchMaker) (s : Store) (labels : LabelMap) :
    (h.runFresh (clusterStore persist) pm s labels).2.state =
      Function.update s h.identity (h.settle persist pm labels (s h.identity)) := by
  cases hs : s h.identity with
  | none =>
    rw [clusterStore_run_absent h persist pm s labels hs]
    simp [Handler.settle]
  | some found =>
    cases hc : pm.Calculate found (h.desired labels) with
    | error e =>
      rw [clusterStore_run_calcError h persist pm s labels found e hs hc]
      simp [Handler.settle, hc, ← hs]
    | ok p =>
      cases hp : p.IsEmpty
      · rw [clusterStore_run_update h persist pm s labels found p hs hc hp]
        simp [Handler.settle, hc, hp]
      · rw [clusterStore_run_noop h persist pm s labels found p hs hc hp]
        simp [Handler.settle, hc, hp, ← hs]

/-- If decoding the server's reply to the handler's template changes nothing
in the label map, the map is after a run what it was before. -/
theorem clusterStore_run_labels (h : Handler) (persist : Option Object → Object → Object)
    (pm : PatchMaker) (s : Store) (labels : LabelMap)
    (hquiet : ∀ old, decodeLabelsInto labels
      (persist old (h.desired labels)).objectMeta.Labels = labels) :
    (h.runFresh (clusterStore persist) pm s labels).2.labels = labels := by
  cases hs : s h.identity with
  | none =>
    rw [clusterStore_run_absent h persist pm s labels hs]
    exact hquiet none
  | some found =>
    cases hc : pm.Calculate found (h.desired labels) with
    | error e => rw [clusterStore_run_calcError h persist pm s labels found e hs hc]
    | ok p =>
      cases hp : p.IsEmpty
      · rw [clusterStore_run_update h persist pm s labels found p hs hc hp]
        exact hquiet (some found)
      · rw [clusterStore_run_noop h persist pm s labels found p hs hc hp]

/-- The result and the calls of a run depend on the store only through what it
holds at the handler's identity; every store call addresses that identity and
none fails. -/
theorem clusterStore_run_local (h : Handler) (persist : Option Object → Object → Object)
    (pm : PatchMaker) (s : Store) (labels : LabelMap) :
    (∀ s2 : Store, s2 h.identity = s h.identity →
        (h.runFresh (clusterStore persist) pm s2 labels).1 =
          (h.runFresh (clusterStore persist) pm s labels).1 ∧
        (h.runFresh (clusterStore persist) pm s2 labels).2.calls =
          (h.runFresh (clusterStore persist) pm s labels).2.calls) ∧
      (∀ c ∈ (h.runFresh (clusterStore persist) pm s labels).2.calls,
        (∀ id, c.target = some id → id = h.identity) ∧ c.storeFailure = false) := by
  have hdid := Handler.desired_identity h labels
  cases hs : s h.identity with
  | none =>
    refine ⟨fun s2 h2 => ?_, ?_⟩
    · rw [clusterStore_run_absent h persist pm s labels hs,
        clusterStore_run_absent h persist pm s2 labels h2]
      exact ⟨rfl, rfl⟩
    · rw [clusterStore_run_absent h persist pm s labels hs]
      intro c hc
      simp at hc
      rcases hc with rfl | rfl
      · refine ⟨fun id hid => ?_, rfl⟩
        simp [Call.target] at hid
        exact hid.symm
      · refine ⟨fun id hid => ?_, rfl⟩
        simp [Call.target] at hid
        exact hid.symm.trans hdid
  | some found =>
    cases hc : pm.Calculate found (h.desired labels) with
    | error e =>
      refine ⟨fun s2 h2 => ?_, ?_⟩
      · rw [clusterStore_run_calcError h persist pm s labels found e hs hc,
          clusterStore_run_calcError h persist pm s2 labels found e h2 hc]
        exact ⟨rfl, rfl⟩
      · rw [clusterStore_run_calcError h persist pm s labels found e hs hc]
        intro c hc
        simp at hc
        rcases hc with rfl | rfl
        · refine ⟨fun id hid => ?_, rfl⟩
          simp [Call.target] at hid
          exact hid.symm
        · refine ⟨fun id hid => ?_, rfl⟩
          simp [Call.target] at hid
    | ok p =>
      cases hp : p.IsEmpty
      · refine ⟨fun s2 h2 => ?_, ?_⟩
        · rw [clusterStore_run_update h persist pm s labels found p hs hc hp,
            clusterStore_run_update h persist pm s2 labels found p h2 hc hp]
          exact ⟨rfl, rfl⟩
        · rw [clusterStore_run_update h persist pm s labels found p hs hc hp]
          intro c hc
          simp at hc
          rcases hc with rfl | rfl | rfl
          · refine ⟨fun id hid => ?_, rfl⟩
            simp [Call.target] at hid
            exact hid.symm
          · refine ⟨fun id hid => ?_, rfl⟩
            simp [Call.target] at hid
          · refine ⟨fun id hid => ?_, rfl⟩
            simp [Call.target] at hid
            exact hid.symm.trans hdid
      · refine ⟨fun s2 h2 => ?_, ?_⟩
        · rw [clusterStore_run_noop h persist pm s labels found p hs hc hp,
            clusterStore_run_noop h persist pm s2 labels found p h2 hc hp]
          exact ⟨rfl, rfl⟩
        · rw [clusterStore_run_noop h persist pm s labels found p hs hc hp]
          intro c hc
          simp at hc
          rcases hc with rfl | rfl
          · refine ⟨fun id hid => ?_, rfl⟩
            simp [Call.target] at hid
            exact hid.symm
          · refine ⟨fun id hid => ?_, rfl⟩
            simp [Call.target] at hid

/-! ## Byte slices: `Index`, `Count`, `Replace` -/

theorem isPrefixOf_eq_true_iff (sep s : List Byte) : sep.isPrefixOf s = true ↔ sep <+: s :=
  List.isPrefixOf_iff_prefix

/-- Left of the first instance there is no instance. -/
theorem Index_some_take_free (sep : List Byte) (hsep : sep ≠ []) :
    ∀ (s : List Byte) (i : Nat), Index s sep = some i → ¬ sep <:+: s.take i := by
  intro s
  induction s with
  | nil =>
    intro i hi hinf
    simp at hinf
    exact hsep hinf
  | cons c cs ih =>
    intro i hi hinf
    unfold Index at hi
    by_cases hpre : sep.isPrefixOf (c :: cs) = true
    · rw [if_pos hpre] at hi
      cases hi
      simp at hinf
      exact hsep hinf
    · rw [if_neg hpre] at hi
      cases hidx : Index cs sep with
      | none => rw [hidx] at hi; cases hi
      | some j =>
        rw [hidx] at hi
        simp at hi
        subst hi
        rw [List.take_succ_cons, List.infix_cons_iff] at hinf
        rcases hinf with hp | hin
        · apply hpre
          rw [isPrefixOf_eq_true_iff]
          exact hp.trans ((List.take_prefix (j + 1) (c :: cs)))
        · exact ih j hidx hin

/-- When `Index` finds nothing there is no instance. -/
theorem Index_none_free (sep : List Byte) :
    ∀ s : List Byte, Index s sep = none → ¬ sep <:+: s := by
  intro s
  induction s with
  | nil =>
    intro hi hinf
    simp at hinf
    simp [Index, hinf] at hi
  | cons c cs ih =>
    intro hi hinf
    unfold Index at hi
    by_cases hpre : sep.isPrefixOf (c :: cs) = true
    · rw [if_pos hpre] at hi
      cases hi
    · rw [if_neg hpre] at hi
      cases hidx : Index cs sep with
      | none =>
        rw [List.infix_cons_iff] at hinf
        rcases hinf with hp | hin
        · exact hpre ((isPrefixOf_eq_true_iff _ _).2 hp)
        · exact ih hidx hin
      | some j => rw [hidx] at hi; cases hi

/-- An instance found by `Index` sits at the index returned. -/
theorem Index_some_split (sep : List Byte) :
    ∀ (s : List Byte) (i : Nat), Index s sep = some i →
      s = s.take i ++ sep ++ s.drop (i + sep.length) := by
  intro s
  induction s with
  | nil =>
    intro i hi
    unfold Index at hi
    by_cases hnil : sep = []
    · simp [hnil]
    · rw [if_neg hnil] at hi
      cases hi
  | cons c cs ih =>
    intro i hi
    unfold Index at hi
    by_cases hpre : sep.isPrefixOf (c :: cs) = true
    · rw [if_pos hpre] at hi
      cases hi
      obtain ⟨t, ht⟩ := (isPrefixOf_eq_true_iff _ _).1 hpre
      rw [← ht]
      simp
    · rw [if_neg hpre] at hi
      cases hidx : Index cs sep with
      | none => rw [hidx] at hi; cases hi
      | some j =>
        rw [hidx] at hi
        simp at hi
        subst hi
        have hcs := ih j hidx
        have hdrop : (c :: cs).drop (j + 1 + sep.length) = cs.drop (j + sep.length) := by
          rw [show j + 1 + sep.length = (j + sep.length) + 1 by omega, List.drop_succ_cons]
        rw [hdrop, List.take_succ_cons, List.cons_append, List.cons_append, ← hcs]

theorem Index_some_length (sep : List Byte) :
    ∀ (s : List Byte) (i : Nat), Index s sep = some i → i + sep.length ≤ s.length := by
  intro s
  induction s with
  | nil =>
    intro i hi
    unfold Index at hi
    by_cases hnil : sep = []
    · rw [if_pos hnil] at hi
      cases hi
      simp [hnil]
    · rw [if_neg hnil] at hi
      cases hi
  | cons c cs ih =>
    intro i hi
    unfold Index at hi
    by_cases hpre : sep.isPrefixOf (c :: cs) = true
    · rw [if_pos hpre] at hi
      cases hi
      have hle := ((isPrefixOf_eq_true_iff _ _).1 hpre).length_le
      omega
    · rw [if_neg hpre] at hi
      cases hidx : Index cs sep with
      | none => rw [hidx] at hi; cases hi
      | some j =>
        rw [hidx] at hi
        simp at hi
        subst hi
        have hle := ih j hidx
        simp only [List.length_cons]
        omega

theorem intercalate_cons_of_ne_nil (v a : List Byte) (rest : List (List Byte))
    (hrest : rest ≠ []) :
    List.intercalate v (a :: rest) = a ++ v ++ List.intercalate v rest := by
  cases rest with
  | nil => exact absurd rfl hrest
  | cons b bs => simp [List.intercalate, List.intersperse]

theorem splitLoop_ne_nil (sep : List Byte) (fuel : Nat) (s : List Byte) :
    splitLoop sep fuel s ≠ [] := by
  cases fuel with
  | zero => simp [splitLoop]
  | succ n =>
    unfold splitLoop
    cases Index s sep <;> simp

/-- Joining the pieces with the separator gives back the slice. -/
theorem splitLoop_join (sep : List Byte) :
    ∀ (fuel : Nat) (s : List Byte), List.intercalate sep (splitLoop sep fuel s) = s := by
  intro fuel
  induction fuel with
  | zero => intro s; simp [splitLoop, List.intercalate]
  | succ n ih =>
    intro s
    unfold splitLoop
    cases hidx : Index s sep with
    | none => simp [List.intercalate]
    | some i =>
      simp only []
      rw [intercalate_cons_of_ne_nil _ _ _ (splitLoop_ne_nil sep n _), ih]
      exact (Index_some_split sep s i hidx).symm

/-- With enough fuel no piece contains the separator. -/
theorem splitLoop_free (sep : List Byte) (hsep : sep ≠ []) :
    ∀ (fuel : Nat) (s : List Byte), s.length < fuel →
      ∀ seg ∈ splitLoop sep fuel s, ¬ sep <:+: seg := by
  intro fuel
  induction fuel with
  | zero => intro s hlen; omega
  | succ n ih =>
    intro s hlen seg hseg
    unfold splitLoop at hseg
    cases hidx : Index s sep with
    | none =>
      rw [hidx] at hseg
      simp at hseg
      rw [hseg]
      exact Index_none_free sep s hidx
    | some i =>
      rw [hidx] at hseg
      simp only [List.mem_cons] at hseg
      rcases hseg with rfl | hmem
      · exact Index_some_take_free sep hsep s i hidx
      · refine ih _ ?_ seg hmem
        have hle := Index_some_length sep s i hidx
        have hpos : 0 < sep.length := List.length_pos.2 hsep
        simp
        omega

theorem countLoop_acc (sep : List Byte) :
    ∀ (fuel : Nat) (s : List Byte) (n : Nat),
      countLoop sep fuel s n = n + countLoop sep fuel s 0 := by
  intro fuel
  induction fuel with
  | zero => intro s n; simp [countLoop]
  | succ k ih =>
    intro s n
    unfold countLoop
    cases Index s sep with
    | none => simp
    | some i =>
      simp only []
      rw [ih _ (n + 1), ih _ (0 + 1)]
      omega

/-- The bound `Count` passes to its loop is never used up: any two bounds above
the length of the slice give the same count. -/
theorem countLoop_fuel (sep : List Byte) (hsep : sep ≠ []) :
    ∀ (f1 f2 : Nat) (s : List Byte) (n : Nat), s.length < f1 → s.length < f2 →
      countLoop sep f1 s n = countLoop sep f2 s n := by
  intro f1
  induction f1 with
  | zero => intro f2 s n h1; omega
  | succ k ih =>
    intro f2 s n h1 h2
    cases f2 with
    | zero => omega
    | succ m =>
      unfold countLoop
      cases hidx : Index s sep with
      | none => rfl
      | some i =>
        simp only []
        have hle := Index_some_length sep s i hidx
        have hpos : 0 < sep.length := List.length_pos.2 hsep
        apply ih <;> simp <;> omega

theorem countLoop_zero_split (sep : List Byte) (fuel : Nat) (s : List Byte)
    (hzero : countLoop sep fuel s 0 = 0) : splitLoop sep fuel s = [s] := by
  cases fuel with
  | zero => simp [splitLoop]
  | succ k =>
    unfold countLoop at hzero
    unfold splitLoop
    cases hidx : Index s sep with
    | none => rfl
    | some i =>
      rw [hidx] at hzero
      simp only [] at hzero
      rw [countLoop_acc] at hzero
      omega

/-- The replacement loop, run for as many iterations as `countLoop` counted,
writes the pieces joined by `new`. -/
theorem replaceLoop_eq (s old new : List Byte) :
    ∀ (fuel start : Nat) (t : List Byte),
      replaceLoop s old new (countLoop old fuel (s.drop start) 0) start t =
        some (t ++ List.intercalate new (splitLoop old fuel (s.drop start))) := by
  intro fuel
  induction fuel with
  | zero => intro start t; simp [countLoop, replaceLoop, splitLoop, List.intercalate]
  | succ k ih =>
    intro start t
    unfold countLoop splitLoop
    cases hidx : Index (s.drop start) old with
    | none => simp [replaceLoop, List.intercalate]
    | some i =>
      simp only []
      rw [countLoop_acc, Nat.add_comm (0 + 1), replaceLoop]
      simp only [hidx]
      have hdrop : List.drop (i + old.length) (List.drop start s) =
          List.drop (start + i + old.length) s := by
        rw [List.drop_drop]
        congr 1
        omega
      rw [hdrop, ih (start + i + old.length),
        intercalate_cons_of_ne_nil _ _ _ (splitLoop_ne_nil old k _)]
      simp

theorem Count_eq_countLoop (s : List Byte) (a b : Byte) (rest : List Byte)
    (h : a :: b :: rest ≠ []) :
    Count s (a :: b :: rest) h = countLoop (a :: b :: rest) (s.length + 1) s 0 := rfl

/-- `ReplaceAll` with a separator of two or more bytes never panics and
returns the pieces of `s` joined by `new`. -/
theorem ReplaceAll_eq (s new : List Byte) (a b : Byte) (rest : List Byte)
    (h : a :: b :: rest ≠ []) :
    ReplaceAll s (a :: b :: rest) new h =
      some (List.intercalate new (splitLoop (a :: b :: rest) (s.length + 1) s)) := by
  unfold ReplaceAll Replace
  simp only [Count_eq_countLoop]
  by_cases hzero : countLoop (a :: b :: rest) (s.length + 1) s 0 = 0
  · simp [hzero, countLoop_zero_split _ _ _ hzero, List.intercalate]
  · have hloop := replaceLoop_eq s (a :: b :: rest) new (s.length + 1) 0 []
    simp only [List.drop_zero, List.nil_append] at hloop
    simp [hzero, hloop]

theorem placeholder_eq : placeholder =
    36 :: 123 :: [78, 70, 83, 95, 68, 82, 73, 86, 69, 82, 95, 73, 77, 65, 71, 69, 125] := by
  decide

theorem ReplaceAll_placeholder (s new : List Byte) (h : placeholder ≠ []) :
    ReplaceAll s placeholder new h = some (joinedBy new (splitAtPlaceholder s)) := by
  unfold joinedBy splitAtPlaceholder
  have hgen : ∀ (sep : List Byte) (hs : sep ≠ []) (a b : Byte) (rest : List Byte),
      sep = a :: b :: rest →
      ReplaceAll s sep new hs = some (List.intercalate new (splitLoop sep (s.length + 1) s)) := by
    intro sep hs a b rest heq
    subst heq
    exact ReplaceAll_eq s new a b rest hs
  exact hgen placeholder h _ _ _ placeholder_eq

/-! ## Claims about a single handler -/

/-- C1. For each of the five handlers, every content of the label map and every
outside state in which the fetch at the desired identity reports not-found: the
run makes exactly the calls `Get` and then `Create` of the desired template, so
exactly one `Create` whose argument is the template, no `Update` and no
invocation of the patch calculator; it returns exactly what that `Create`
returned, `nil` when the `Create` succeeds, and leaves the outside world and
the label map as the `Create` left them. -/
theorem notFound_issues_one_create {σ : Type} (h : Handler) (r : ReconcileManilaDriver σ)
    (pm : PatchMaker) (s : σ) (labels : LabelMap) (e : Error)
    (hget : (h.fetch r s).1 = Except.error e) (hnf : IsNotFound e = true) :
    (h.runFresh r pm s labels).2.calls =
        [Call.Get h.kind h.key (some e),
         Call.Create (h.desired labels)
           (r.clientCreate (h.desired labels) (h.fetch r s).2).err] ∧
      creates (h.runFresh r pm s labels).2.calls = [h.desired labels] ∧
      updates (h.runFresh r pm s labels).2.calls = [] ∧
      calculations (h.runFresh r pm s labels).2.calls = [] ∧
      (h.runFresh r pm s labels).1 = (r.clientCreate (h.desired labels) (h.fetch r s).2).err ∧
      ((r.clientCreate (h.desired labels) (h.fetch r s).2).err = none →
        (h.runFresh r pm s labels).1 = none) ∧
      (h.runFresh r pm s labels).2.state =
        (r.clientCreate (h.desired labels) (h.fetch r s).2).state ∧
      (h.runFresh r pm s labels).2.labels =
        (r.clientCreate (h.desired labels) (h.fetch r s).2).labels := by
  rw [Handler.run_notFound h r pm s labels e hget hnf]
  simp [creates, updates, calculations]

/-- C1, at a concrete input: the service-account handler on the empty store,
the label map holding what it is initialised with. -/
theorem notFound_issues_one_create_witness :
    creates (Handler.ServiceAccount.runFresh (clusterStore stampServerFields) diffEngine
        emptyStore labelsManilaControllerPlugin).2.calls =
        [Object.ServiceAccount (sa labelsManilaControllerPlugin)] ∧
      updates (Handler.ServiceAccount.runFresh (clusterStore stampServerFields) diffEngine
        emptyStore labelsManilaControllerPlugin).2.calls = [] :=
  have hall := notFound_issues_one_create Handler.ServiceAccount
    (clusterStore stampServerFields) diffEngine emptyStore labelsManilaControllerPlugin
    (NewNotFound Handler.ServiceAccount.identity) rfl (by decide)
  ⟨hall.2.1, hall.2.2.1⟩

/-- C2 as stated fails: the object passed to `Update` does not carry over the
unmanaged fields of the observed object.  With an observed service account
whose resource version is "42", whose UID is "a1b2" and whose labels were
removed, the claim would make the `Update` argument carry resource version
"42"; the handler passes the template, whose resource version is empty. -/
theorem update_carries_unmanaged_fields_fails :
    ¬ ∀ (h : Handler) (r : ReconcileManilaDriver Unit) (pm : PatchMaker)
        (found : Object) (p : PatchResult),
        (h.fetch r ()).1 = Except.ok found →
        pm.Calculate found (h.desired labelsManilaControllerPlugin) = Except.ok p →
        p.IsEmpty = false →
        ∃ u, updates (h.runFresh r pm () labelsManilaControllerPlugin).2.calls = [u] ∧
          creates (h.runFresh r pm () labelsManilaControllerPlugin).2.calls = [] ∧
          u.managed = (h.desired labelsManilaControllerPlugin).managed ∧
          u.objectMeta.ResourceVersion = found.objectMeta.ResourceVersion ∧
          u.objectMeta.UID = found.objectMeta.UID := by
  intro hall
  have hex := hall Handler.ServiceAccount
    { apiReaderGet := fun _ _ _ =>
        (Except.ok (Object.ServiceAccount
          { ObjectMeta := { Name := "openstack-manila-csi-controllerplugin",
                            Namespace := "openshift-manila-csi-driver",
                            ResourceVersion := "42", UID := "a1b2" },
            Secrets := ["token-x7"] }), ()),
      clientCreate := fun obj _ =>
        { err := none, state := (), labels := obj.objectMeta.Labels },
      clientUpdate := fun obj _ =>
        { err := none, state := (), labels := obj.objectMeta.Labels } }
    diffEngine
    (Object.ServiceAccount
      { ObjectMeta := { Name := "openstack-manila-csi-controllerplugin",
                        Namespace := "openshift-manila-csi-driver",
                        ResourceVersion := "42", UID := "a1b2" },
        Secrets := ["token-x7"] })
    { Patch := "changed" } rfl rfl (by decide)
  obtain ⟨u, hu, -, -, hrv, -⟩ := hex
  have hupd : updates (Handler.ServiceAccount.runFresh
      { apiReaderGet := fun _ _ _ =>
          (Except.ok (Object.ServiceAccount
            { ObjectMeta := { Name := "openstack-manila-csi-controllerplugin",
                              Namespace := "openshift-manila-csi-driver",
                              ResourceVersion := "42", UID := "a1b2" },
              Secrets := ["token-x7"] }), ()),
        clientCreate := fun obj _ =>
          { err := none, state := (), labels := obj.objectMeta.Labels },
        clientUpdate := fun obj _ =>
          { err := none, state := (), labels := obj.objectMeta.Labels } }
      diffEngine () labelsManilaControllerPlugin).2.calls =
        [Object.ServiceAccount (sa labelsManilaControllerPlugin)] := by decide
  rw [hupd] at hu
  have hu' : u = Object.ServiceAccount (sa labelsManilaControllerPlugin) := by
    simpa using hu.symm
  rw [hu'] at hrv
  exact absurd hrv (by decide)

/-- C2, amended. For each of the five handlers, every content of the label map
and every outside state holding, at the desired identity, an object for which
the patch calculator returns a non-empty patch: the run makes exactly the calls
`Get`, `Calculate`, `Update`, so exactly one `Update` and no `Create`; the
object passed to `Update` is the desired template itself, whatever the observed
object is, so it has the desired values in the managed fields and an empty
resource version and UID; the run returns what the `Update` returned. -/
theorem nonEmptyPatch_updates_with_template {σ : Type} (h : Handler)
    (r : ReconcileManilaDriver σ) (pm : PatchMaker) (s : σ) (labels : LabelMap)
    (found : Object) (p : PatchResult)
    (hget : (h.fetch r s).1 = Except.ok found)
    (hcalc : pm.Calculate found (h.desired labels) = Except.ok p) (hp : p.IsEmpty = false) :
    (h.runFresh r pm s labels).2.calls =
        [Call.Get h.kind h.key none,
         Call.Calculate found (h.desired labels) none,
         Call.Update (h.desired labels)
           (r.clientUpdate (h.desired labels) (h.fetch r s).2).err] ∧
      updates (h.runFresh r pm s labels).2.calls = [h.desired labels] ∧
      creates (h.runFresh r pm s labels).2.calls = [] ∧
      (h.desired labels).objectMeta.ResourceVersion = "" ∧
      (h.desired labels).objectMeta.UID = "" ∧
      (h.runFresh r pm s labels).1 =
        (r.clientUpdate (h.desired labels) (h.fetch r s).2).err := by
  rw [Handler.run_update h r pm s labels found p hget hcalc hp]
  refine ⟨rfl, by simp [updates], by simp [creates], ?_, ?_, rfl⟩ <;> cases h <;> rfl

/-- C2 amended, at a concrete input: a stored role whose rules were emptied. -/
theorem nonEmptyPatch_updates_with_template_witness :
    updates (Handler.Role.runFresh (clusterStore stampServerFields) diffEngine
        (Function.update emptyStore Handler.Role.identity
          (some (Object.Role { role labelsManilaControllerPlugin with Rules := [] })))
        labelsManilaControllerPlugin).2.calls =
      [Object.Role (role labelsManilaControllerPlugin)] :=
  (nonEmptyPatch_updates_with_template Handler.Role (clusterStore stampServerFields) diffEngine
    (Function.update emptyStore Handler.Role.identity
      (some (Object.Role { role labelsManilaControllerPlugin with Rules := [] })))
    labelsManilaControllerPlugin
    (Object.Role { role labelsManilaControllerPlugin with Rules := [] }) { Patch := "changed" }
    rfl rfl (by decide)).2.1

/-- C3. For each of the five handlers, every content of the label map and every
outside state holding, at the desired identity, an object for which the patch
calculator returns an empty patch: the run makes exactly the calls `Get` and
`Calculate`, so no `Create` and no `Update`; it returns `nil`, the outside
state is as the fetch left it and the label map is as it was. -/
theorem emptyPatch_issues_no_mutation {σ : Type} (h : Handler) (r : ReconcileManilaDriver σ)
    (pm : PatchMaker) (s : σ) (labels : LabelMap) (found : Object) (p : PatchResult)
    (hget : (h.fetch r s).1 = Except.ok found)
    (hcalc : pm.Calculate found (h.desired labels) = Except.ok p) (hp : p.IsEmpty = true) :
    (h.runFresh r pm s labels).2.calls =
        [Call.Get h.kind h.key none,
         Call.Calculate found (h.desired labels) none] ∧
      creates (h.runFresh r pm s labels).2.calls = [] ∧
      updates (h.runFresh r pm s labels).2.calls = [] ∧
      (h.runFresh r pm s labels).1 = none ∧
      (h.runFresh r pm s labels).2.state = (h.fetch r s).2 ∧
      (h.runFresh r pm s labels).2.labels = labels := by
  rw [Handler.run_noop h r pm s labels found p hget hcalc hp]
  simp [creates, updates]

/-- C3, at a concrete input: a stored cluster role binding that equals the
template up to the server-assigned fields. -/
theorem emptyPatch_issues_no_mutation_witness :
    (Handler.ClusterRoleBinding.runFresh (clusterStore stampServerFields) diffEngine
        (Function.update emptyStore Handler.ClusterRoleBinding.identity
          (some (stampServerFields none
            (Object.ClusterRoleBinding (crb labelsManilaControllerPlugin)))))
        labelsManilaControllerPlugin).1 = none :=
  (emptyPatch_issues_no_mutation Handler.ClusterRoleBinding (clusterStore stampServerFields)
    diffEngine
    (Function.update emptyStore Handler.ClusterRoleBinding.identity
      (some (stampServerFields none
        (Object.ClusterRoleBinding (crb labelsManilaControllerPlugin)))))
    labelsManilaControllerPlugin
    (stampServerFields none (Object.ClusterRoleBinding (crb labelsManilaControllerPlugin)))
    { Patch := "{}" } rfl rfl (by decide)).2.2.2.1

/-- C7. Store errors propagate, for each of the five handlers, every content
of the label map and every behaviour of the store: (i) if the fetch fails with
an error other than not-found, the run returns that error and issues no
`Create` and no `Update`; (ii) if a `Create` or an `Update` the run issues
fails, the run returns that error; and the run returns `nil` only if no store
call it made failed, a not-found fetch not counting as a failure. -/
theorem store_errors_propagate {σ : Type} (h : Handler) (r : ReconcileManilaDriver σ)
    (pm : PatchMaker) (s : σ) (labels : LabelMap) :
    (∀ e, (h.fetch r s).1 = Except.error e → IsNotFound e = false →
        (h.runFresh r pm s labels).1 = some e ∧
        creates (h.runFresh r pm s labels).2.calls = [] ∧
        updates (h.runFresh r pm s labels).2.calls = []) ∧
      (∀ obj e, Call.Create obj (some e) ∈ (h.runFresh r pm s labels).2.calls →
        (h.runFresh r pm s labels).1 = some e) ∧
      (∀ obj e, Call.Update obj (some e) ∈ (h.runFresh r pm s labels).2.calls →
        (h.runFresh r pm s labels).1 = some e) ∧
      ((h.runFresh r pm s labels).1 = none →
        ∀ c ∈ (h.runFresh r pm s labels).2.calls, c.storeFailure = false) := by
  rcases Handler.paths h r pm s labels with
    ⟨e, hg, hnf⟩ | ⟨e, hg, hnf⟩ | ⟨found, e, hg, hc⟩ | ⟨found, p, hg, hc, hp⟩ |
    ⟨found, p, hg, hc, hp⟩
  · rw [Handler.run_notFound h r pm s labels e hg hnf]
    refine ⟨?_, ?_, ?_, ?_⟩
    · intro e2 hg2 hnf2
      rw [hg] at hg2
      cases hg2
      rw [hnf] at hnf2
      cases hnf2
    · intro obj e2 hmem
      simp at hmem
      exact hmem.2.symm
    · intro obj e2 hmem
      simp at hmem
    · intro hnil c hc
      simp at hnil
      simp at hc
      rcases hc with rfl | rfl
      · simp [Call.storeFailure, hnf]
      · simp [Call.storeFailure, hnil]
  · rw [Handler.run_fetchError h r pm s labels e hg hnf]
    refine ⟨?_, ?_, ?_, ?_⟩
    · intro e2 hg2 _
      rw [hg] at hg2
      cases hg2
      simp [creates, updates]
    · intro obj e2 hmem
      simp at hmem
    · intro obj e2 hmem
      simp at hmem
    · intro hnil
      simp at hnil
  · rw [Handler.run_calcError h r pm s labels found e hg hc]
    refine ⟨?_, ?_, ?_, ?_⟩
    · intro e2 hg2 _
      rw [hg] at hg2
      cases hg2
    · intro obj e2 hmem
      simp at hmem
    · intro obj e2 hmem
      simp at hmem
    · intro hnil
      simp at hnil
  · rw [Handler.run_noop h r pm s labels found p hg hc hp]
    refine ⟨?_, ?_, ?_, ?_⟩
    · intro e2 hg2 _
      rw [hg] at hg2
      cases hg2
    · intro obj e2 hmem
      simp at hmem
    · intro obj e2 hmem
      simp at hmem
    · intro _ c hc
      simp at hc
      rcases hc with rfl | rfl <;> simp [Call.storeFailure]
  · rw [Handler.run_update h r pm s labels found p hg hc hp]
    refine ⟨?_, ?_, ?_, ?_⟩
    · intro e2 hg2 _
      rw [hg] at hg2
      cases hg2
    · intro obj e2 hmem
      simp at hmem
    · intro obj e2 hmem
      simp at hmem
      exact hmem.2.symm
    · intro hnil c hc
      simp at hnil
      simp at hc
      rcases hc with rfl | rfl | rfl
      · simp [Call.storeFailure]
      · simp [Call.storeFailure]
      · simp [Call.storeFailure, hnil]

/-- C7, at a concrete input: a store whose fetch fails with a timeout. -/
theorem store_errors_propagate_witness :
    (Handler.ClusterRole.runFresh
        { apiReaderGet := fun _ _ s => (Except.error { Reason := "Timeout", Message := "t" }, s),
          clientCreate := fun obj s =>
            { err := none, state := s, labels := obj.objectMeta.Labels },
          clientUpdate := fun obj s =>
            { err := none, state := s, labels := obj.objectMeta.Labels } }
        diffEngine () labelsManilaControllerPlugin).1 =
      some { Reason := "Timeout", Message := "t" } :=
  ((store_errors_propagate Handler.ClusterRole
      { apiReaderGet := fun _ _ s => (Except.error { Reason := "Timeout", Message := "t" }, s),
        clientCreate := fun obj s =>
          { err := none, state := s, labels := obj.objectMeta.Labels },
        clientUpdate := fun obj s =>
          { err := none, state := s, labels := obj.objectMeta.Labels } }
      diffEngine () labelsManilaControllerPlugin).1
    { Reason := "Timeout", Message := "t" } rfl (by decide)).1

/-- C10. `handleManilaControllerPluginRBAC` runs the five handlers in the
fixed order ServiceAccount, ClusterRole, ClusterRoleBinding, Role, RoleBinding,
each from the world (outside state, call log and label map) the previous one
left, so the service account and each role come before the binding that names
them.  It stops at the first handler that returns an error: it returns exactly
that error and the world is the one that handler left, so no later handler made
a call.  It returns `nil` if and only if all five handlers returned `nil`. -/
theorem rbac_sequences_handlers {σ : Type} (r : ReconcileManilaDriver σ) (pm : PatchMaker)
    (w : World σ) :
    handleManilaControllerPluginRBAC r pm w = runInOrder r pm rbacOrder w ∧
      rbacOrder = [Handler.ServiceAccount, Handler.ClusterRole, Handler.ClusterRoleBinding,
        Handler.Role, Handler.RoleBinding] ∧
      (∀ (before after : List Handler) (h : Handler) (e : Error),
        rbacOrder = before ++ h :: after →
        (runInOrder r pm before w).1 = none →
        (h.run r pm (runInOrder r pm before w).2).1 = some e →
        handleManilaControllerPluginRBAC r pm w =
          (some e, (h.run r pm (runInOrder r pm before w).2).2)) ∧
      ((handleManilaControllerPluginRBAC r pm w).1 = none ↔
        (handleManilaControllerPluginServiceAccount r pm w).1 = none ∧
        (handleManilaControllerPluginClusterRole r pm
          (handleManilaControllerPluginServiceAccount r pm w).2).1 = none ∧
        (handleManilaControllerPluginClusterRoleBinding r pm
          (handleManilaControllerPluginClusterRole r pm
            (handleManilaControllerPluginServiceAccount r pm w).2).2).1 = none ∧
        (handleManilaControllerPluginRole r pm
          (handleManilaControllerPluginClusterRoleBinding r pm
            (handleManilaControllerPluginClusterRole r pm
              (handleManilaControllerPluginServiceAccount r pm w).2).2).2).1 = none ∧
        (handleManilaControllerPluginRoleBinding r pm
          (handleManilaControllerPluginRole r pm
            (handleManilaControllerPluginClusterRoleBinding r pm
              (handleManilaControllerPluginClusterRole r pm
                (handleManilaControllerPluginServiceAccount r pm w).2).2).2).2).1 = none) ∧
      (∀ labels : LabelMap,
        (crb labels).Subjects.map (fun x => (x.Kind, x.Namespace, x.Name)) =
          [("ServiceAccount", (sa labels).ObjectMeta.Namespace, (sa labels).ObjectMeta.Name)] ∧
        ((crb labels).RoleRef.Kind, (crb labels).RoleRef.Name) =
          ("ClusterRole", (cr labels).ObjectMeta.Name) ∧
        (rb labels).Subjects.map (fun x => (x.Kind, x.Namespace, x.Name)) =
          [("ServiceAccount", (sa labels).ObjectMeta.Namespace, (sa labels).ObjectMeta.Name)] ∧
        ((rb labels).RoleRef.Kind, (rb labels).RoleRef.Name) =
          ("Role", (role labels).ObjectMeta.Name)) := by
  refine ⟨rbac_eq_runInOrder r pm w, rfl, ?_, ?_, fun _ => ⟨rfl, rfl, rfl, rfl⟩⟩
  · intro before after h e hsplit hbefore hfail
    rw [rbac_eq_runInOrder, hsplit]
    exact runInOrder_stops r pm before after h w e hbefore hfail
  · simp only [handleManilaControllerPluginRBAC]
    rcases h1 : handleManilaControllerPluginServiceAccount r pm w with ⟨_ | e1, w1⟩
    · dsimp only
      rcases h2 : handleManilaControllerPluginClusterRole r pm w1 with ⟨_ | e2, w2⟩
      · dsimp only
        rcases h3 : handleManilaControllerPluginClusterRoleBinding r pm w2 with ⟨_ | e3, w3⟩
        · dsimp only
          rcases h4 : handleManilaControllerPluginRole r pm w3 with ⟨_ | e4, w4⟩
          · dsimp only
            rcases h5 : handleManilaControllerPluginRoleBinding r pm w4 with ⟨_ | e5, w5⟩ <;>
              simp
          · simp
        · simp
      · simp
    · simp

/-- C10, at a concrete input: on a store that rejects every `Create`, the
sequence ends with the error of the first handler, after its two calls. -/
theorem rbac_sequences_handlers_witness :
    handleManilaControllerPluginRBAC
        { apiReaderGet := fun kind key s => (Except.error (NewNotFound (kind, key)), s),
          clientCreate := fun obj s =>
            { err := some { Reason := "Forbidden", Message := "no" }, state := s,
              labels := obj.objectMeta.Labels },
          clientUpdate := fun obj s =>
            { err := none, state := s, labels := obj.objectMeta.Labels } }
        diffEngine { state := (), calls := [], labels := labelsManilaControllerPlugin } =
      (some { Reason := "Forbidden", Message := "no" },
       (Handler.ServiceAccount.run
        { apiReaderGet := fun kind key s => (Except.error (NewNotFound (kind, key)), s),
          clientCreate := fun obj s =>
            { err := some { Reason := "Forbidden", Message := "no" }, state := s,
              labels := obj.objectMeta.Labels },
          clientUpdate := fun obj s =>
            { err := none, state := s, labels := obj.objectMeta.Labels } }
        diffEngine { state := (), calls := [], labels := labelsManilaControllerPlugin }).2) :=
  (rbac_sequences_handlers
      { apiReaderGet := fun kind key s => (Except.error (NewNotFound (kind, key)), s),
        clientCreate := fun obj s =>
          { err := some { Reason := "Forbidden", Message := "no" }, state := s,
            labels := obj.objectMeta.Labels },
        clientUpdate := fun obj s =>
          { err := none, state := s, labels := obj.objectMeta.Labels } }
      diffEngine { state := (), calls := [], labels := labelsManilaControllerPlugin }).2.2.1 [] _ Handler.ServiceAccount
    { Reason := "Forbidden", Message := "no" } rfl rfl rfl

/-! ## Claims about runs on the cluster object store -/

/-- C4 as stated fails: a store with nothing at the desired identity and whose
calls all succeed does not make the second run a no-op.  On a server that
stores objects without their labels, with the diff engine of the spec, the
first run of the service-account handler creates the template and the second
run, finding the stored object without the labels of the template, issues an
`Update`; no store call of either run fails. -/
theorem second_run_updates_when_server_drops_labels :
    updates (Handler.ServiceAccount.runFresh (clusterStore dropLabels) diffEngine
        (Handler.ServiceAccount.runFresh (clusterStore dropLabels) diffEngine emptyStore
          labelsManilaControllerPlugin).2.state
        (Handler.ServiceAccount.runFresh (clusterStore dropLabels) diffEngine emptyStore
          labelsManilaControllerPlugin).2.labels).2.calls =
        [Object.ServiceAccount (sa labelsManilaControllerPlugin)] ∧
      ((Handler.ServiceAccount.runFresh (clusterStore dropLabels) diffEngine emptyStore
          labelsManilaControllerPlugin).2.calls.all (fun c => !c.storeFailure) = true ∧
        (Handler.ServiceAccount.runFresh (clusterStore dropLabels) diffEngine
          (Handler.ServiceAccount.runFresh (clusterStore dropLabels) diffEngine emptyStore
            labelsManilaControllerPlugin).2.state
          (Handler.ServiceAccount.runFresh (clusterStore dropLabels) diffEngine emptyStore
            labelsManilaControllerPlugin).2.labels).2.calls.all
          (fun c => !c.storeFailure) = true) ∧
      ¬ ∀ (h : Handler) (persist : Option Object → Object → Object) (s : Store),
          s h.identity = none →
          (h.runFresh (clusterStore persist) diffEngine s labelsManilaControllerPlugin).1 =
              none ∧
            creates (h.runFresh (clusterStore persist) diffEngine s
              labelsManilaControllerPlugin).2.calls =
              [h.desired labelsManilaControllerPlugin] ∧
            updates (h.runFresh (clusterStore persist) diffEngine s
              labelsManilaControllerPlugin).2.calls = [] ∧
            (h.runFresh (clusterStore persist) diffEngine
              (h.runFresh (clusterStore persist) diffEngine s
                labelsManilaControllerPlugin).2.state
              (h.runFresh (clusterStore persist) diffEngine s
                labelsManilaControllerPlugin).2.labels).1 = none ∧
            creates (h.runFresh (clusterStore persist) diffEngine
              (h.runFresh (clusterStore persist) diffEngine s
                labelsManilaControllerPlugin).2.state
              (h.runFresh (clusterStore persist) diffEngine s
                labelsManilaControllerPlugin).2.labels).2.calls = [] ∧
            updates (h.runFresh (clusterStore persist) diffEngine
              (h.runFresh (clusterStore persist) diffEngine s
                labelsManilaControllerPlugin).2.state
              (h.runFresh (clusterStore persist) diffEngine s
                labelsManilaControllerPlugin).2.labels).2.calls = [] ∧
            (h.runFresh (clusterStore persist) diffEngine
              (h.runFresh (clusterStore persist) diffEngine s
                labelsManilaControllerPlugin).2.state
              (h.runFresh (clusterStore persist) diffEngine s
                labelsManilaControllerPlugin).2.labels).2.state =
              (h.runFresh (clusterStore persist) diffEngine s
                labelsManilaControllerPlugin).2.state := by
  refine ⟨by decide, ⟨by decide, by decide⟩, fun hall => ?_⟩
  have hex := (hall Handler.ServiceAccount dropLabels emptyStore rfl).2.2.2.2.2.1
  revert hex
  decide

/-- C4, amended. Idempotence: for each of the five handlers, on the cluster
object store with nothing at the desired identity, if the patch calculator
returns an empty patch between what the server stored for the created template
and the template the second run builds, then two runs in a row with no other
change to the store give: first run, `nil` with exactly one `Create` (of the
template) and no `Update`; second run, `nil` with no `Create` and no `Update`;
and the store after the second run is the store after the first. -/
theorem reconcile_twice_creates_then_noop (h : Handler)
    (persist : Option Object → Object → Object) (pm : PatchMaker) (s : Store)
    (labels : LabelMap) (p : PatchResult)
    (habsent : s h.identity = none)
    (hcalc : pm.Calculate (persist none (h.desired labels))
      (h.desired (decodeLabelsInto labels (persist none (h.desired labels)).objectMeta.Labels)) =
        Except.ok p)
    (hp : p.IsEmpty = true) :
    (h.runFresh (clusterStore persist) pm s labels).1 = none ∧
      creates (h.runFresh (clusterStore persist) pm s labels).2.calls = [h.desired labels] ∧
      updates (h.runFresh (clusterStore persist) pm s labels).2.calls = [] ∧
      (h.runFresh (clusterStore persist) pm
        (h.runFresh (clusterStore persist) pm s labels).2.state
        (h.runFresh (clusterStore persist) pm s labels).2.labels).1 = none ∧
      creates (h.runFresh (clusterStore persist) pm
        (h.runFresh (clusterStore persist) pm s labels).2.state
        (h.runFresh (clusterStore persist) pm s labels).2.labels).2.calls = [] ∧
      updates (h.runFresh (clusterStore persist) pm
        (h.runFresh (clusterStore persist) pm s labels).2.state
        (h.runFresh (clusterStore persist) pm s labels).2.labels).2.calls = [] ∧
      (h.runFresh (clusterStore persist) pm
        (h.runFresh (clusterStore persist) pm s labels).2.state
        (h.runFresh (clusterStore persist) pm s labels).2.labels).2.state =
        (h.runFresh (clusterStore persist) pm s labels).2.state := by
  have hfirst := clusterStore_run_absent h persist pm s labels habsent
  have hpresent : (Function.update s h.identity (some (persist none (h.desired labels))))
      h.identity = some (persist none (h.desired labels)) := by simp
  have hsecond := clusterStore_run_noop h persist pm _ _ _ p hpresent hcalc hp
  rw [hfirst]
  simp only []
  rw [hsecond]
  simp [creates, updates]

/-- C4 amended, at a concrete input: the role-binding handler on the empty
store, with a server that stamps a UID and a resource version and the diff
engine of the spec. -/
theorem reconcile_twice_creates_then_noop_witness :
    creates (Handler.RoleBinding.runFresh (clusterStore stampServerFields) diffEngine
        emptyStore labelsManilaControllerPlugin).2.calls =
        [Object.RoleBinding (rb labelsManilaControllerPlugin)] ∧
      updates (Handler.RoleBinding.runFresh (clusterStore stampServerFields) diffEngine
        (Handler.RoleBinding.runFresh (clusterStore stampServerFields) diffEngine
          emptyStore labelsManilaControllerPlugin).2.state
        (Handler.RoleBinding.runFresh (clusterStore stampServerFields) diffEngine
          emptyStore labelsManilaControllerPlugin).2.labels).2.calls = [] :=
  have hall := reconcile_twice_creates_then_noop Handler.RoleBinding stampServerFields
    diffEngine emptyStore labelsManilaControllerPlugin { Patch := "{}" } rfl rfl (by decide)
  ⟨hall.2.1, hall.2.2.2.2.2.1⟩

/-- C9 as stated fails: the order of two handlers of different kinds can change
the final store.  On a server that adds a label to the service accounts it
stores, the reply to the service-account `Create` is decoded into the template
and so into the label map all templates share.  Service account first, the
cluster role is then created with the added label; cluster role first, it is
created without it. -/
theorem order_matters_when_reply_adds_label :
    (Handler.ClusterRole.after labelServiceAccounts diffEngine
        (Handler.ServiceAccount.after labelServiceAccounts diffEngine
          (emptyStore, labelsManilaControllerPlugin))).1 Handler.ClusterRole.identity =
        some (Object.ClusterRole
          (cr [("app", "openstack-manila-csi"), ("component", "controllerplugin"),
               ("injected-by", "webhook")])) ∧
      (Handler.ServiceAccount.after labelServiceAccounts diffEngine
        (Handler.ClusterRole.after labelServiceAccounts diffEngine
          (emptyStore, labelsManilaControllerPlugin))).1 Handler.ClusterRole.identity =
        some (Object.ClusterRole
          (cr [("app", "openstack-manila-csi"), ("component", "controllerplugin")])) ∧
      ¬ ∀ (persist : Option Object → Object → Object) (pm : PatchMaker) (s : Store)
          (h1 h2 : Handler), h1 ≠ h2 →
          (h2.after persist pm (h1.after persist pm (s, labelsManilaControllerPlugin))).1 =
            (h1.after persist pm (h2.after persist pm (s, labelsManilaControllerPlugin))).1 := by
  refine ⟨by decide, by decide, fun hall => ?_⟩
  have hex := congrFun (hall labelServiceAccounts diffEngine emptyStore Handler.ServiceAccount
    Handler.ClusterRole (by decide)) Handler.ClusterRole.identity
  revert hex
  decide

/-- C9, amended. On the cluster object store keyed by (kind, namespace, name):
two different handlers manage different kinds and identities; if decoding the
server's replies to their templates leaves the shared label map as it was,
running them in either order leaves the same store (and label map); in every
case a run leaves every object at another identity unchanged, every store call
of a run addresses the handler's own identity and succeeds, and what a run
returns and which calls it makes depend on the store only through the object at
that identity. -/
theorem handlers_commute (persist : Option Object → Object → Object) (pm : PatchMaker)
    (s : Store) (labels : LabelMap) (h1 h2 : Handler) (hne : h1 ≠ h2) :
    h1.kind ≠ h2.kind ∧
      h1.identity ≠ h2.identity ∧
      ((∀ old, decodeLabelsInto labels
            (persist old (h1.desired labels)).objectMeta.Labels = labels) →
        (∀ old, decodeLabelsInto labels
            (persist old (h2.desired labels)).objectMeta.Labels = labels) →
        h2.after persist pm (h1.after persist pm (s, labels)) =
          h1.after persist pm (h2.after persist pm (s, labels))) ∧
      (∀ id, id ≠ h1.identity →
        (h1.runFresh (clusterStore persist) pm s labels).2.state id = s id) ∧
      (∀ c ∈ (h1.runFresh (clusterStore persist) pm s labels).2.calls,
        (∀ id, c.target = some id → id = h1.identity) ∧ c.storeFailure = false) ∧
      (∀ s2 : Store, s2 h1.identity = s h1.identity →
        (h1.runFresh (clusterStore persist) pm s2 labels).1 =
          (h1.runFresh (clusterStore persist) pm s labels).1 ∧
        (h1.runFresh (clusterStore persist) pm s2 labels).2.calls =
          (h1.runFresh (clusterStore persist) pm s labels).2.calls) := by
  have hid := Handler.identity_ne hne
  refine ⟨Handler.kind_ne hne, hid, ?_, ?_, (clusterStore_run_local h1 persist pm s labels).2,
    (clusterStore_run_local h1 persist pm s labels).1⟩
  · intro hq1 hq2
    simp only [Handler.after, clusterStore_run_state,
      clusterStore_run_labels h1 persist pm _ labels hq1,
      clusterStore_run_labels h2 persist pm _ labels hq2]
    rw [Function.update_noteq hid.symm, Function.update_noteq hid]
    rw [Function.update_comm hid _ _ s]
  · intro id hidne
    rw [clusterStore_run_state, Function.update_noteq hidne]

/-- C9 amended, at a concrete input: the service-account and cluster-role
handlers on the empty store, with a server that stamps a UID and a resource
version and leaves the labels alone. -/
theorem handlers_commute_witness :
    Handler.ClusterRole.after stampServerFields diffEngine
        (Handler.ServiceAccount.after stampServerFields diffEngine
          (emptyStore, labelsManilaControllerPlugin)) =
      Handler.ServiceAccount.after stampServerFields diffEngine
        (Handler.ClusterRole.after stampServerFields diffEngine
          (emptyStore, labelsManilaControllerPlugin)) :=
  (handlers_commute stampServerFields diffEngine emptyStore labelsManilaControllerPlugin
    Handler.ServiceAccount Handler.ClusterRole (by decide)).2.2.1
    (fun _ => rfl) (fun _ => rfl)

/-! ## Claims about `pkg/operator/starter.go` -/

/-- C5 as stated fails for a variable that is set to the empty string: with
the asset being the placeholder alone and `NFS_DRIVER_IMAGE` set to "", the
claim's result is the empty byte string (the placeholder replaced by the
value), while `assetWithNFSDriver` returns the asset with the placeholder in
it. -/
theorem set_but_empty_image_not_substituted :
    assetWithNFSDriver (fun _ => some placeholder)
        (fun name => if name = "NFS_DRIVER_IMAGE" then some "" else none) "node_nfs.yaml" =
        some placeholder ∧
      joinedBy (bytesOf "") (splitAtPlaceholder placeholder) = [] ∧
      ¬ ∀ (MustAsset : String → Option (List Byte)) (environ : String → Option String)
          (file : String) (asset : List Byte) (v : String),
          MustAsset file = some asset → environ nfsImageEnvName = some v →
          assetWithNFSDriver MustAsset environ file =
            some (joinedBy (bytesOf v) (splitAtPlaceholder asset)) := by
  refine ⟨by decide, by decide, fun hall => ?_⟩
  have hex := hall (fun _ => some placeholder)
    (fun name => if name = "NFS_DRIVER_IMAGE" then some "" else none) "node_nfs.yaml"
    placeholder "" rfl rfl
  revert hex
  decide

/-- C5, amended. For every asset the loader returns and every value `v` the
environment variable `NFS_DRIVER_IMAGE` is set to: if `v` is not the empty
string, `assetWithNFSDriver` returns the segments of the asset, split at the
placeholder, joined by the bytes of `v`, where those segments joined by the
placeholder are the asset itself and no segment contains the placeholder (so
every instance of the placeholder is replaced and every other byte is kept, in
order); if `v` is the empty string, it returns the asset unmodified. -/
theorem assetWithNFSDriver_substitutes (MustAsset : String → Option (List Byte))
    (environ : String → Option String) (file : String) (asset : List Byte) (v : String)
    (hload : MustAsset file = some asset) (hset : environ nfsImageEnvName = some v) :
    (v ≠ "" →
        assetWithNFSDriver MustAsset environ file =
          some (joinedBy (bytesOf v) (splitAtPlaceholder asset))) ∧
      joinedBy placeholder (splitAtPlaceholder asset) = asset ∧
      (∀ seg ∈ splitAtPlaceholder asset, ¬ placeholder <:+: seg) ∧
      (v = "" → assetWithNFSDriver MustAsset environ file = some asset) := by
  refine ⟨fun hv => ?_, splitLoop_join placeholder _ asset,
    splitLoop_free placeholder (by decide) _ asset (Nat.lt_succ_self _), fun hv => ?_⟩
  · simp only [assetWithNFSDriver, hload, Getenv, hset, Option.getD_some]
    rw [if_neg (by simpa using hv)]
    exact ReplaceAll_placeholder asset (bytesOf v) _
  · simp [assetWithNFSDriver, hload, Getenv, hset, hv]

/-- C5 amended, at the concrete input "img:v2": the asset
"image: ${NFS_DRIVER_IMAGE}" becomes "image: img:v2". -/
theorem assetWithNFSDriver_substitutes_witness :
    assetWithNFSDriver (fun _ => some (bytesOf "image: ${NFS_DRIVER_IMAGE}"))
        (fun name => if name = "NFS_DRIVER_IMAGE" then some "img:v2" else none)
        "node_nfs.yaml" =
        some (joinedBy (bytesOf "img:v2")
          (splitAtPlaceholder (bytesOf "image: ${NFS_DRIVER_IMAGE}"))) ∧
      joinedBy (bytesOf "img:v2") (splitAtPlaceholder (bytesOf "image: ${NFS_DRIVER_IMAGE}")) =
        bytesOf "image: img:v2" :=
  ⟨(assetWithNFSDriver_substitutes (fun _ => some (bytesOf "image: ${NFS_DRIVER_IMAGE}"))
      (fun name => if name = "NFS_DRIVER_IMAGE" then some "img:v2" else none)
      "node_nfs.yaml" (bytesOf "image: ${NFS_DRIVER_IMAGE}") "img:v2" rfl rfl).1 (by decide),
    by decide⟩

/-- C6. For every asset name and every asset the loader returns, the placeholder
in it or not: when `NFS_DRIVER_IMAGE` is not set, `assetWithNFSDriver` returns
exactly the bytes of the loaded asset. -/
theorem assetWithNFSDriver_unset (MustAsset : String → Option (List Byte))
    (environ : String → Option String) (file : String) (asset : List Byte)
    (hload : MustAsset file = some asset) (hunset : environ nfsImageEnvName = none) :
    assetWithNFSDriver MustAsset environ file = some asset := by
  simp [assetWithNFSDriver, hload, Getenv, hunset]

/-- C6, at a concrete input: an asset that contains the placeholder. -/
theorem assetWithNFSDriver_unset_witness :
    assetWithNFSDriver (fun _ => some (bytesOf "image: ${NFS_DRIVER_IMAGE}"))
        (fun _ => none) "node_nfs.yaml" = some (bytesOf "image: ${NFS_DRIVER_IMAGE}") :=
  assetWithNFSDriver_unset (fun _ => some (bytesOf "image: ${NFS_DRIVER_IMAGE}"))
    (fun _ => none) "node_nfs.yaml" (bytesOf "image: ${NFS_DRIVER_IMAGE}") rfl rfl

/-- C8. `RunOperator` never returns success: whenever it returns, the error is
not `nil`.  It returns the error of the first of the dynamic client, the
operator client and the OpenStack client that fails to build; when all three
are built it waits for the shared context, and once that is cancelled it
returns the error "stopped". -/
theorem runOperator_never_returns_nil (c : ControllerContext) :
    (∀ err, RunOperator c = Termination.returned err → err ≠ none) ∧
      (∀ e, c.NewForConfigOrDie = true → c.dynamicNewForConfig = some e →
        RunOperator c = Termination.returned (some e)) ∧
      (∀ e, c.NewForConfigOrDie = true → c.dynamicNewForConfig = none →
        c.NewClusterScopedOperatorClientWithConfigName = some e →
        RunOperator c = Termination.returned (some e)) ∧
      (∀ e, c.NewForConfigOrDie = true → c.dynamicNewForConfig = none →
        c.NewClusterScopedOperatorClientWithConfigName = none →
        c.NewOpenStackClient = some e →
        RunOperator c = Termination.returned (some e)) ∧
      (c.NewForConfigOrDie = true → c.dynamicNewForConfig = none →
        c.NewClusterScopedOperatorClientWithConfigName = none →
        c.NewOpenStackClient = none →
        (c.ctxDone = true →
          RunOperator c = Termination.returned (some (Errorf "stopped"))) ∧
        (c.ctxDone = false → RunOperator c = Termination.blocked)) ∧
      (Errorf "stopped").Message = "stopped" := by
  rcases c with ⟨k, d, o, m, done⟩
  refine ⟨?_, ?_, ?_, ?_, ?_, rfl⟩
  · intro err hret herr
    subst herr
    cases k <;> cases d <;> cases o <;> cases m <;> cases done <;>
      simp [RunOperator] at hret
  · intro e hk hd
    simp only at hk hd
    subst hk hd
    simp [RunOperator]
  · intro e hk hd ho
    simp only at hk hd ho
    subst hk hd ho
    simp [RunOperator]
  · intro e hk hd ho hm
    simp only at hk hd ho hm
    subst hk hd ho hm
    simp [RunOperator]
  · intro hk hd ho hm
    simp only at hk hd ho hm
    subst hk hd ho hm
    refine ⟨fun hdone => ?_, fun hdone => ?_⟩
    · simp only at hdone
      subst hdone
      simp [RunOperator]
    · simp only at hdone
      subst hdone
      simp [RunOperator]

/-- C8, at a concrete input: a clean shutdown, every client built and the
context cancelled. -/
theorem runOperator_never_returns_nil_witness :
    RunOperator
        { NewForConfigOrDie := true, dynamicNewForConfig := none,
          NewClusterScopedOperatorClientWithConfigName := none, NewOpenStackClient := none,
          ctxDone := true } =
      Termination.returned (some (Errorf "stopped")) :=
  ((runOperator_never_returns_nil
      { NewForConfigOrDie := true, dynamicNewForConfig := none,
        NewClusterScopedOperatorClientWithConfigName := none, NewOpenStackClient := none,
        ctxDone := true }).2.2.2.2.1 rfl rfl rfl rfl).1 rfl

end ManilaOperator
